import Mathlib

/-!
Verification of the uotan_riscv_emu-ng emulator core against its
natural-language specification.  The definitions below are a shallow
embedding of the C++ sources (src/include/core/*.hpp, src/src/core/*.cpp):
64-bit machine words are `Nat` values with explicit `% 2 ^ 64` wrapping,
C++ exceptions of type `Trap` become an explicit result constructor, and
`std::terminate()` becomes the `fatal` constructor.
-/

namespace Uemu

/-- Two's-complement 64-bit wrap (C++ unsigned overflow semantics). -/
def wrap64 (x : Nat) : Nat := x % 2 ^ 64

/-- 64-bit complement `~m` of a mask `m < 2^64` (C++ `~` on `uint64_t`). -/
def compl64 (m : Nat) : Nat := (2 ^ 64 - 1) ^^^ m

/-- `bits(x, hi, lo)` from common/bit.hpp: extract bits `hi..lo`. -/
def bitsOf (x hi lo : Nat) : Nat := (x >>> lo) % 2 ^ (hi - lo + 1)

/-- `sext(x, len)` from common/bit.hpp, with the result reinterpreted as the
64-bit unsigned pattern the executors store into registers
(`(int64_t)(x << (64-len)) >> (64-len)` cast back to `uint64_t`). -/
def sext64 (x len : Nat) : Nat :=
  if len = 0 ∨ 64 ≤ len then x
  else
    let low := x % 2 ^ len
    if low < 2 ^ (len - 1) then low else low + (2 ^ 64 - 2 ^ len)

/-- Reinterpret a 64-bit unsigned pattern as `int64_t`. -/
def i64 (n : Nat) : Int :=
  if n % 2 ^ 64 < 2 ^ 63 then (n % 2 ^ 64 : Nat) else (n % 2 ^ 64 : Nat) - 2 ^ 64

/-- Reinterpret a 32-bit unsigned pattern as `int32_t`. -/
def i32 (n : Nat) : Int :=
  if n % 2 ^ 32 < 2 ^ 31 then (n % 2 ^ 32 : Nat) else (n % 2 ^ 32 : Nat) - 2 ^ 32

/-- Encode an integer as its 64-bit two's complement pattern
(C++ `static_cast<uint64_t>` of a signed value). -/
def u64ofInt (i : Int) : Nat := (i % (2 ^ 64 : Int)).toNat

/-- Privilege levels, as the underlying values of `enum class PrivilegeLevel`
(U = 0, S = 1, M = 3).  Kept as `Nat` because the C++ code freely
`static_cast`s 2-bit CSR fields to this enum. -/
def privU : Nat := 0

def privS : Nat := 1

def privM : Nat := 3

/-- The cause tags of `enum class TrapCause` (core/hart.hpp). -/
inductive TrapCause where
  | InstructionAddressMisaligned
  | InstructionAccessFault
  | IllegalInstruction
  | Breakpoint
  | LoadAddressMisaligned
  | LoadAccessFault
  | StoreAMOAddressMisaligned
  | StoreAMOAccessFault
  | EnvironmentCallFromU
  | EnvironmentCallFromS
  | EnvironmentCallFromM
  | InstructionPageFault
  | LoadPageFault
  | StoreAMOPageFault
  | SupervisorSoftwareInterrupt
  | MachineSoftwareInterrupt
  | SupervisorTimerInterrupt
  | MachineTimerInterrupt
  | SupervisorExternalInterrupt
  | MachineExternalInterrupt
  | None
deriving DecidableEq, Repr

/-- The numeric value of each cause tag (core/hart.hpp). -/
def TrapCause.val : TrapCause → Nat
  | .InstructionAddressMisaligned => 0
  | .InstructionAccessFault => 1
  | .IllegalInstruction => 2
  | .Breakpoint => 3
  | .LoadAddressMisaligned => 4
  | .LoadAccessFault => 5
  | .StoreAMOAddressMisaligned => 6
  | .StoreAMOAccessFault => 7
  | .EnvironmentCallFromU => 8
  | .EnvironmentCallFromS => 9
  | .EnvironmentCallFromM => 11
  | .InstructionPageFault => 12
  | .LoadPageFault => 13
  | .StoreAMOPageFault => 15
  | .SupervisorSoftwareInterrupt => 2 ^ 63 + 1
  | .MachineSoftwareInterrupt => 2 ^ 63 + 3
  | .SupervisorTimerInterrupt => 2 ^ 63 + 5
  | .MachineTimerInterrupt => 2 ^ 63 + 7
  | .SupervisorExternalInterrupt => 2 ^ 63 + 9
  | .MachineExternalInterrupt => 2 ^ 63 + 11
  | .None => 2 ^ 64 - 1

/-- A raised trap: `throw Trap(pc, cause, tval)` in the C++ code. -/
structure Trap where
  pc : Nat
  cause : TrapCause
  tval : Nat
deriving DecidableEq, Repr

/-- Result of a step of the emulator: normal completion, a raised `Trap`
exception, or `std::terminate()`. -/
inductive MemResult (α : Type) where
  | ok (a : α)
  | trap (t : Trap)
  | fatal
deriving DecidableEq, Repr

/-! ## CSR field layout (core/hart.hpp) -/

namespace MSTATUS

def SIE : Nat := 1 <<< 1

def MIE : Nat := 1 <<< 3

def SPIE : Nat := 1 <<< 5

def MPIE : Nat := 1 <<< 7

def SPP : Nat := 1 <<< 8

/-- `MPP = 3ULL << 11`, written as the or of its two bits. -/
def MPP : Nat := (1 <<< 11) ||| (1 <<< 12)

/-- `FS = 3ULL << 13`, written as the or of its two bits. -/
def FS : Nat := (1 <<< 13) ||| (1 <<< 14)

def MPRV : Nat := 1 <<< 17

def SUM : Nat := 1 <<< 18

def MXR : Nat := 1 <<< 19

def TVM : Nat := 1 <<< 20

def TW : Nat := 1 <<< 21

def TSR : Nat := 1 <<< 22

/-- `UXL = 3ULL << 32`, written as the or of its two bits. -/
def UXL : Nat := (1 <<< 32) ||| (1 <<< 33)

/-- `SXL = 3ULL << 34`, written as the or of its two bits. -/
def SXL : Nat := (1 <<< 34) ||| (1 <<< 35)

def SD : Nat := 1 <<< 63

/-- `read_mask_` set up in `MSTATUS::MSTATUS` (core/hart.cpp). -/
def READ_MASK : Nat :=
  SIE ||| MIE ||| SPIE ||| MPIE ||| SPP ||| MPP ||| FS ||| MPRV ||| SUM |||
    MXR ||| TVM ||| TW ||| TSR ||| UXL ||| SXL ||| SD

/-- `write_mask_` set up in `MSTATUS::MSTATUS` (core/hart.cpp). -/
def WRITE_MASK : Nat :=
  MIE ||| MPIE ||| MPRV ||| MPP ||| FS ||| SIE ||| SPIE ||| SPP ||| SUM |||
    MXR ||| TVM ||| TW ||| TSR

end MSTATUS

/-- `MSTATUS::read_unchecked`. -/
def mstatus_read (value : Nat) : Nat := value &&& MSTATUS.READ_MASK

/-- `MSTATUS::write_unchecked`: merge under the write mask and keep the
derived SD bit consistent with FS. -/
def mstatus_write_unchecked (value v : Nat) : Nat :=
  let w := (value &&& compl64 MSTATUS.WRITE_MASK) ||| (v &&& MSTATUS.WRITE_MASK)
  if (w &&& MSTATUS.FS) >>> 13 = 3 then w ||| MSTATUS.SD
  else w &&& compl64 MSTATUS.SD

namespace SSTATUS

/-- `SSTATUS::read_mask_`. -/
def READ_MASK : Nat :=
  MSTATUS.SIE ||| MSTATUS.SPIE ||| MSTATUS.SPP ||| MSTATUS.FS |||
    MSTATUS.SUM ||| MSTATUS.MXR ||| MSTATUS.UXL ||| MSTATUS.SD

/-- `SSTATUS::write_mask_`. -/
def WRITE_MASK : Nat :=
  MSTATUS.SIE ||| MSTATUS.SPIE ||| MSTATUS.SPP ||| MSTATUS.SUM ||| MSTATUS.MXR

end SSTATUS

/-- `SSTATUS::read_unchecked`: masked view of mstatus. -/
def sstatus_read (mstatusValue : Nat) : Nat :=
  mstatus_read mstatusValue &&& SSTATUS.READ_MASK

/-- `SSTATUS::write_unchecked`: merge into the mstatus view under the
sstatus write mask, then store through `MSTATUS::write_unchecked`. -/
def sstatus_write_unchecked (mstatusValue v : Nat) : Nat :=
  let old := mstatus_read mstatusValue
  let w := (old &&& compl64 SSTATUS.WRITE_MASK) ||| (v &&& SSTATUS.WRITE_MASK)
  mstatus_write_unchecked mstatusValue w

/-- `EPCCSR::read_unchecked` (`read_mask_ = ~1`). -/
def epc_read (value : Nat) : Nat := value &&& compl64 1

/-- `EPCCSR::write_unchecked` (`write_mask_ = ~1`). -/
def epc_write_unchecked (value v : Nat) : Nat :=
  (value &&& 1) ||| (v &&& compl64 1)

/-- `TVECCSR::write_unchecked`: bit 1 is forced to zero. -/
def tvec_write_unchecked (v : Nat) : Nat := v &&& compl64 2

/-- `MEDELEG` mask: bits 11 and 16 read-only zero. -/
def MEDELEG_MASK : Nat := compl64 ((1 <<< 11) ||| (1 <<< 16))

def medeleg_read (value : Nat) : Nat := value &&& MEDELEG_MASK

def medeleg_write_unchecked (v : Nat) : Nat := v &&& MEDELEG_MASK

namespace MENVCFG

def FIOM : Nat := 1 <<< 0

def ADUE : Nat := 1 <<< 61

def STCE : Nat := 1 <<< 63

/-- `MENVCFG::mask_`. -/
def MASK : Nat := FIOM ||| ADUE ||| STCE

end MENVCFG

def menvcfg_read (value : Nat) : Nat := value &&& MENVCFG.MASK

def menvcfg_write_unchecked (v : Nat) : Nat := v &&& MENVCFG.MASK

namespace MCOUNTINHIBIT

def CY : Nat := 1 <<< 0

def IR : Nat := 1 <<< 2

def MASK : Nat := compl64 2

end MCOUNTINHIBIT

def mcountinhibit_read (value : Nat) : Nat := value &&& MCOUNTINHIBIT.MASK

/-- `CAUSECSR::is_valid_cause_value`; `minPriv` is the CSR's `min_priv_`
(M for mcause, S for scause). -/
def is_valid_cause_value (minPriv : Nat) (value : Nat) : Bool :=
  if value = TrapCause.InstructionAddressMisaligned.val ∨
      value = TrapCause.InstructionAccessFault.val ∨
      value = TrapCause.IllegalInstruction.val ∨
      value = TrapCause.Breakpoint.val ∨
      value = TrapCause.LoadAddressMisaligned.val ∨
      value = TrapCause.LoadAccessFault.val ∨
      value = TrapCause.StoreAMOAddressMisaligned.val ∨
      value = TrapCause.StoreAMOAccessFault.val ∨
      value = TrapCause.EnvironmentCallFromU.val ∨
      value = TrapCause.EnvironmentCallFromS.val ∨
      value = TrapCause.InstructionPageFault.val ∨
      value = TrapCause.LoadPageFault.val ∨
      value = TrapCause.StoreAMOPageFault.val ∨
      value = TrapCause.SupervisorSoftwareInterrupt.val ∨
      value = TrapCause.SupervisorTimerInterrupt.val ∨
      value = TrapCause.SupervisorExternalInterrupt.val then true
  else if value = TrapCause.EnvironmentCallFromM.val ∨
      value = TrapCause.MachineSoftwareInterrupt.val ∨
      value = TrapCause.MachineTimerInterrupt.val ∨
      value = TrapCause.MachineExternalInterrupt.val then
    decide (minPriv = privM)
  else false

/-- `CAUSECSR::write_unchecked`: invalid cause values are dropped. -/
def cause_write_unchecked (minPriv : Nat) (value v : Nat) : Nat :=
  if is_valid_cause_value minPriv v then v else value

namespace SATP

def PPN_SHIFT : Nat := 0

def ASID_SHIFT : Nat := 44

def MODE_SHIFT : Nat := 60

def PPN : Nat := (2 ^ 44 - 1) <<< PPN_SHIFT

def ASID : Nat := (2 ^ 16 - 1) <<< ASID_SHIFT

def MODE : Nat := 0xF <<< MODE_SHIFT

def Bare : Nat := 0

def Sv39 : Nat := 8

def Sv48 : Nat := 9

def Sv57 : Nat := 10

end SATP

/-- `SATP::write_unchecked` (core/hart.cpp): a write whose MODE field is
neither Bare nor Sv39 is ignored entirely; a legal value change also
flushes the TLB (the source MMU holds no TLB state to model). -/
def satp_write_unchecked (value v : Nat) : Nat :=
  let mode := (v &&& SATP.MODE) >>> SATP.MODE_SHIFT
  if value ≠ v ∧ (mode = SATP.Bare ∨ mode = SATP.Sv39) then v else value

/-! ## Register file and hart state -/

/-- `RegisterFile::read`: index 0 reads as zero. -/
def gprRead (g : Nat → Nat) (idx : Nat) : Nat := if idx = 0 then 0 else g idx

/-- `RegisterFile::write`: writes to index 0 are ignored. -/
def gprWrite (g : Nat → Nat) (idx v : Nat) : Nat → Nat :=
  if idx ≠ 0 then Function.update g idx v else g

/-- Architectural hart state: pc, privilege, integer registers and the raw
stored values (`value_`) of the CSRs the verified claims touch.  Reads and
writes go through the per-CSR accessors above. -/
structure Hart where
  pc : Nat
  priv : Nat
  gprs : Nat → Nat
  mstatus : Nat
  mepc : Nat
  mcause : Nat
  mtval : Nat
  mtvec : Nat
  sepc : Nat
  scause : Nat
  stval : Nat
  stvec : Nat
  medeleg : Nat
  mideleg : Nat
  satp : Nat
  menvcfg : Nat
  mcycle : Nat
  minstret : Nat
  minstret_suppressed : Bool
  mcountinhibit : Nat

/-- `misa` reset value from `Hart::Hart` (core/hart.cpp): I, M, A, F, D, C,
S, U plus MXL = 64-bit. -/
def MISA_VALUE : Nat :=
  (1 <<< 8) ||| (1 <<< 12) ||| (1 <<< 0) ||| (1 <<< 5) ||| (1 <<< 3) |||
    (1 <<< 2) ||| (1 <<< 18) ||| (1 <<< 20) ||| (2 <<< 62)

/-- Decoded-instruction fields used by the executors (core/decoder.hpp). -/
structure DecodedInsn where
  insn : Nat
  rd : Nat
  rs1 : Nat
  rs2 : Nat
  imm : Nat
  pc : Nat

/-! ## RV64M division and remainder executors (core/execute.cpp) -/

/-- `exec_div`. -/
def exec_div (h : Hart) (d : DecodedInsn) : Hart :=
  let r1 := gprRead h.gprs d.rs1
  let r2 := gprRead h.gprs d.rs2
  let v :=
    if i64 r2 = 0 then 2 ^ 64 - 1
    else if i64 r1 = -(2 ^ 63) ∧ i64 r2 = -1 then u64ofInt (i64 r1)
    else u64ofInt (Int.tdiv (i64 r1) (i64 r2))
  { h with gprs := gprWrite h.gprs d.rd v }

/-- `exec_divu`. -/
def exec_divu (h : Hart) (d : DecodedInsn) : Hart :=
  let r1 := gprRead h.gprs d.rs1
  let r2 := gprRead h.gprs d.rs2
  let v := if r2 = 0 then 2 ^ 64 - 1 else r1 / r2
  { h with gprs := gprWrite h.gprs d.rd v }

/-- `exec_divuw`. -/
def exec_divuw (h : Hart) (d : DecodedInsn) : Hart :=
  let v1 := bitsOf (gprRead h.gprs d.rs1) 31 0
  let v2 := bitsOf (gprRead h.gprs d.rs2) 31 0
  let v := if v2 = 0 then 2 ^ 64 - 1 else sext64 (v1 / v2) 32
  { h with gprs := gprWrite h.gprs d.rd v }

/-- `exec_divw`. -/
def exec_divw (h : Hart) (d : DecodedInsn) : Hart :=
  let v1 := i32 (bitsOf (gprRead h.gprs d.rs1) 31 0)
  let v2 := i32 (bitsOf (gprRead h.gprs d.rs2) 31 0)
  let v :=
    if v2 = 0 then 2 ^ 64 - 1
    else if v1 = -(2 ^ 31) ∧ v2 = -1 then sext64 (u64ofInt v1) 32
    else sext64 (u64ofInt (Int.tdiv v1 v2)) 32
  { h with gprs := gprWrite h.gprs d.rd v }

/-- `exec_rem`. -/
def exec_rem (h : Hart) (d : DecodedInsn) : Hart :=
  let r1 := gprRead h.gprs d.rs1
  let r2 := gprRead h.gprs d.rs2
  let v :=
    if i64 r2 = 0 then u64ofInt (i64 r1)
    else if i64 r1 = -(2 ^ 63) ∧ i64 r2 = -1 then 0
    else u64ofInt (Int.tmod (i64 r1) (i64 r2))
  { h with gprs := gprWrite h.gprs d.rd v }

/-- `exec_remu`. -/
def exec_remu (h : Hart) (d : DecodedInsn) : Hart :=
  let r1 := gprRead h.gprs d.rs1
  let r2 := gprRead h.gprs d.rs2
  let v := if r2 = 0 then r1 else r1 % r2
  { h with gprs := gprWrite h.gprs d.rd v }

/-- `exec_remuw`. -/
def exec_remuw (h : Hart) (d : DecodedInsn) : Hart :=
  let v1 := bitsOf (gprRead h.gprs d.rs1) 31 0
  let v2 := bitsOf (gprRead h.gprs d.rs2) 31 0
  let v := if v2 = 0 then sext64 v1 32 else sext64 (v1 % v2) 32
  { h with gprs := gprWrite h.gprs d.rd v }

/-- `exec_remw`. -/
def exec_remw (h : Hart) (d : DecodedInsn) : Hart :=
  let v1 := i32 (bitsOf (gprRead h.gprs d.rs1) 31 0)
  let v2 := i32 (bitsOf (gprRead h.gprs d.rs2) 31 0)
  let v :=
    if v2 = 0 then sext64 (u64ofInt v1) 32
    else if v1 = -(2 ^ 31) ∧ v2 = -1 then 0
    else sext64 (u64ofInt (Int.tmod v1 v2)) 32
  { h with gprs := gprWrite h.gprs d.rd v }

/-- A concrete hart for witnesses: pc at the DRAM base, M-mode, and two
register values placed in x1/x2. -/
def witnessHart (r1 r2 : Nat) : Hart where
  pc := 0x80000000
  priv := privM
  gprs := fun i => if i = 1 then r1 else if i = 2 then r2 else 0
  mstatus := 0
  mepc := 0
  mcause := 0
  mtval := 0
  mtvec := 0
  sepc := 0
  scause := 0
  stval := 0
  stvec := 0
  medeleg := 0
  mideleg := 0
  satp := 0
  menvcfg := 0
  mcycle := 0
  minstret := 0
  minstret_suppressed := false
  mcountinhibit := 0

/-- An R-type decoded instruction on x3 ← x1 op x2 for witnesses. -/
def witnessInsn : DecodedInsn where
  insn := 0
  rd := 3
  rs1 := 1
  rs2 := 2
  imm := 0
  pc := 0x80000000

/-- Whether a step completed normally. -/
def MemResult.isOk {α : Type} : MemResult α → Bool
  | .ok _ => true
  | _ => false

/-- The trap raised by a step, if any. -/
def MemResult.trapOf {α : Type} : MemResult α → Option Trap
  | .trap t => some t
  | _ => none

/-- The hart produced by a normally completed step (with a fallback). -/
def hartOf (r : MemResult Hart) (dflt : Hart) : Hart :=
  match r with
  | .ok h => h
  | _ => dflt

/-! ## Branch and jump executors (core/execute.cpp) -/

/-- `exec_beq`: on a taken branch, a target with any of its low 2 bits set
raises Instruction Address Misaligned. -/
def exec_beq (h : Hart) (d : DecodedInsn) : MemResult Hart :=
  if gprRead h.gprs d.rs1 = gprRead h.gprs d.rs2 then
    let npc := wrap64 (d.pc + d.imm)
    if npc &&& 0x3 ≠ 0 then
      .trap ⟨d.pc, .InstructionAddressMisaligned, npc⟩
    else .ok { h with pc := npc }
  else .ok h

/-- `exec_jal`. -/
def exec_jal (h : Hart) (d : DecodedInsn) : MemResult Hart :=
  let npc := wrap64 (d.pc + d.imm)
  if npc &&& 0x3 ≠ 0 then
    .trap ⟨d.pc, .InstructionAddressMisaligned, npc⟩
  else
    .ok { h with gprs := gprWrite h.gprs d.rd (wrap64 (d.pc + 4)), pc := npc }

/-! ## Privileged return executors (core/execute.cpp) -/

/-- The mutations `exec_sret` applies to its local copy of the sstatus view
before writing it back: clear MPRV if the restored privilege is not M, copy
SPIE into SIE, set SPIE, clear SPP. -/
def sret_sstatus_arg (x : Nat) : Nat :=
  let priv2 := (x &&& MSTATUS.SPP) >>> 8
  let s1 := if priv2 ≠ privM then x &&& compl64 MSTATUS.MPRV else x
  let s2 := if s1 &&& MSTATUS.SPIE ≠ 0 then s1 ||| MSTATUS.SIE
    else s1 &&& compl64 MSTATUS.SIE
  (s2 ||| MSTATUS.SPIE) &&& compl64 MSTATUS.SPP

/-- `exec_sret`. -/
def exec_sret (h : Hart) (d : DecodedInsn) : MemResult Hart :=
  if h.priv = privU ∨
      (h.priv = privS ∧ mstatus_read h.mstatus &&& MSTATUS.TSR ≠ 0) then
    .trap ⟨d.pc, .IllegalInstruction, d.insn⟩
  else
    .ok { h with pc := epc_read h.sepc,
                 priv := (sstatus_read h.mstatus &&& MSTATUS.SPP) >>> 8,
                 mstatus := sstatus_write_unchecked h.mstatus
                   (sret_sstatus_arg (sstatus_read h.mstatus)) }

/-- The mutations `exec_mret` applies to its local copy of the mstatus view
before writing it back: clear MPRV if the restored privilege is not M, copy
MPIE into MIE, set MPIE, clear MPP. -/
def mret_mstatus_arg (x : Nat) : Nat :=
  let priv2 := (x &&& MSTATUS.MPP) >>> 11
  let m1 := if priv2 ≠ privM then x &&& compl64 MSTATUS.MPRV else x
  let m2 := if m1 &&& MSTATUS.MPIE ≠ 0 then m1 ||| MSTATUS.MIE
    else m1 &&& compl64 MSTATUS.MIE
  (m2 ||| MSTATUS.MPIE) &&& compl64 MSTATUS.MPP

/-- `exec_mret`. -/
def exec_mret (h : Hart) (d : DecodedInsn) : MemResult Hart :=
  if h.priv ≠ privM then .trap ⟨d.pc, .IllegalInstruction, d.insn⟩
  else
    .ok { h with pc := epc_read h.mepc,
                 priv := (mstatus_read h.mstatus &&& MSTATUS.MPP) >>> 11,
                 mstatus := mstatus_write_unchecked h.mstatus
                   (mret_mstatus_arg (mstatus_read h.mstatus)) }

/-! ## Trap dispatch (`Hart::handle_trap`, core/hart.cpp) -/

/-- The privilege level a trap is dispatched to: S if the hart runs at S or
below and the cause is delegated through mideleg/medeleg, otherwise M. -/
def trap_target_priv (h : Hart) (t : Trap) : Nat :=
  let cause_val := t.cause.val
  let is_interrupt := cause_val >>> 63 &&& 1 = 1
  let cause_code := cause_val &&& compl64 (1 <<< 63)
  if h.priv ≤ privS then
    let deleg_mask := if is_interrupt then h.mideleg else medeleg_read h.medeleg
    if (deleg_mask >>> cause_code) &&& 1 = 1 then privS else privM
  else privM

/-- The mutations `Hart::handle_trap` applies to its local copy of the
sstatus view when dispatching a trap to S-mode: copy SIE into SPIE, record
the interrupted privilege in SPP, clear SIE. -/
def trap_s_sstatus_arg (x priv : Nat) : Nat :=
  let s1 := if x &&& MSTATUS.SIE ≠ 0 then x ||| MSTATUS.SPIE
    else x &&& compl64 MSTATUS.SPIE
  let s2 := if privS ≤ priv then s1 ||| MSTATUS.SPP
    else s1 &&& compl64 MSTATUS.SPP
  s2 &&& compl64 MSTATUS.SIE

/-- The mutations `Hart::handle_trap` applies to its local copy of the
mstatus view when dispatching a trap to M-mode: copy MIE into MPIE, record
the interrupted privilege in MPP, clear MIE. -/
def trap_m_mstatus_arg (x priv : Nat) : Nat :=
  let m1 := if x &&& MSTATUS.MIE ≠ 0 then x ||| MSTATUS.MPIE
    else x &&& compl64 MSTATUS.MPIE
  let m2 := (m1 &&& compl64 MSTATUS.MPP) ||| (priv <<< 11)
  m2 &&& compl64 MSTATUS.MIE

/-- The trap vector: `xtvec.BASE`, plus `4 * cause_code` for interrupts in
vectored mode. -/
def trap_vector_pc (tvec : Nat) (t : Trap) : Nat :=
  let cause_val := t.cause.val
  let is_interrupt := cause_val >>> 63 &&& 1 = 1
  let cause_code := cause_val &&& compl64 (1 <<< 63)
  let vector_base := tvec &&& compl64 3
  let vector_mode := tvec &&& 3
  if is_interrupt ∧ vector_mode = 1 then
    wrap64 (vector_base + (cause_code <<< 2))
  else vector_base

/-- `Hart::handle_trap`: write xepc/xcause/xtval, save xIE into xPIE, record
the old privilege in xPP, clear xIE, vector the pc and enter the target
privilege.  A `TrapCause::None` cause is `std::terminate()`. -/
def handle_trap (h : Hart) (t : Trap) : MemResult Hart :=
  if t.cause = TrapCause.None then .fatal
  else if trap_target_priv h t = privS then
    .ok { h with
          sepc := epc_write_unchecked h.sepc t.pc,
          scause := cause_write_unchecked privS h.scause t.cause.val,
          stval := t.tval,
          mstatus := sstatus_write_unchecked h.mstatus
            (trap_s_sstatus_arg (sstatus_read h.mstatus) h.priv),
          pc := trap_vector_pc h.stvec t,
          priv := privS }
  else
    .ok { h with
          mepc := epc_write_unchecked h.mepc t.pc,
          mcause := cause_write_unchecked privM h.mcause t.cause.val,
          mtval := t.tval,
          mstatus := mstatus_write_unchecked h.mstatus
            (trap_m_mstatus_arg (mstatus_read h.mstatus) h.priv),
          pc := trap_vector_pc h.mtvec t,
          priv := privM }

/-! ## Cycle and retirement counters (core/hart.hpp) -/

/-- `CSR::check_permissions`: the hart privilege must be at least the CSR's
minimum privilege. -/
def csr_check_permissions (h : Hart) (minPriv : Nat) : Bool :=
  minPriv ≤ h.priv

/-- `MCYCLE` goes through the plain `CSR::write_checked` path: privilege
check, then plain storage; nothing else. -/
def mcycle_write_checked (h : Hart) (d : DecodedInsn) (v : Nat) :
    MemResult Hart :=
  if csr_check_permissions h privM then .ok { h with mcycle := v }
  else .trap ⟨d.pc, .IllegalInstruction, d.insn⟩

/-- `MCYCLE::advance`: increment unless `mcountinhibit.CY` is set. -/
def mcycle_advance (h : Hart) : Hart :=
  if mcountinhibit_read h.mcountinhibit &&& MCOUNTINHIBIT.CY ≠ 0 then h
  else { h with mcycle := wrap64 (h.mcycle + 1) }

/-- `MINSTRET::write_checked`: the plain checked write, then mark the next
auto-increment as suppressed. -/
def minstret_write_checked (h : Hart) (d : DecodedInsn) (v : Nat) :
    MemResult Hart :=
  if csr_check_permissions h privM then
    .ok { h with minstret := v, minstret_suppressed := true }
  else .trap ⟨d.pc, .IllegalInstruction, d.insn⟩

/-- `MINSTRET::advance`: increment unless suppressed or inhibited; always
clear the suppression flag. -/
def minstret_advance (h : Hart) : Hart :=
  if ¬h.minstret_suppressed ∧
      mcountinhibit_read h.mcountinhibit &&& MCOUNTINHIBIT.IR = 0 then
    { h with minstret := wrap64 (h.minstret + 1), minstret_suppressed := false }
  else { h with minstret_suppressed := false }

/-! ## Claim C2 (code bug): SRET fails to clear mstatus.MPRV -/

/-- The failing input for C2: an S-mode hart with `mstatus.MPRV = 1`,
`TSR = 0`, `SPP = 0`. -/
def sretBugHart : Hart :=
  { witnessHart 0 0 with priv := privS, mstatus := MSTATUS.MPRV,
                         sepc := 0x80001000 }

/-! ## Claim C3 (code bug): branch targets with bit 1 set trap despite misa.C -/

/-- The failing input for C3: a taken branch whose target is pc + 2
(bit 1 set, bit 0 clear). -/
def branchBugInsn : DecodedInsn :=
  { witnessInsn with imm := 2 }

/-- The hart after taking a trap and executing MRET. -/
def trapThenMret (h : Hart) (t : Trap) (d : DecodedInsn) : Hart :=
  hartOf (exec_mret (hartOf (handle_trap h t) h) d) h

/-! ## DRAM and bus (core/dram.hpp, core/bus.hpp, device/device.hpp) -/

def DRAM_BASE : Nat := 0x80000000

/-- `Dram::is_valid_addr`. -/
def dram_is_valid_addr (size addr len : Nat) : Bool :=
  if addr < DRAM_BASE then false
  else
    let offset := addr - DRAM_BASE
    if len > size ∨ offset > size - len then false else true

/-- Little-endian read of `len` bytes from a byte store. -/
def leRead (mem : Nat → Nat) (addr : Nat) : Nat → Nat
  | 0 => 0
  | n + 1 => (mem addr % 256) + 256 * leRead mem (addr + 1) n

/-- Little-endian write of the low `len` bytes of `v` into a byte store. -/
def leWrite (mem : Nat → Nat) (addr v : Nat) : Nat → (Nat → Nat)
  | 0 => mem
  | n + 1 => leWrite (Function.update mem addr (v % 256)) (addr + 1) (v / 256) n

/-- A registered device as the bus sees it: its range plus the offset-based
handlers `read_internal` / `write_internal` (device/device.hpp).  Only the
handlers' results are modelled, not device-internal state. -/
structure BusDevice where
  devStart : Nat
  devEnd : Nat
  read_internal : Nat → Nat → Option Nat
  write_internal : Nat → Nat → Nat → Bool

/-- `Device::contains`. -/
def BusDevice.contains (dev : BusDevice) (addr len : Nat) : Bool :=
  if addr < dev.devStart ∨ addr > dev.devEnd then false
  else if len > 0 ∧ addr + len - 1 > dev.devEnd then false
  else true

/-- `Device::read<T>`: delegate to the offset-based handler and cast the
result to the access width. -/
def BusDevice.read (dev : BusDevice) (addr size : Nat) : Option Nat :=
  match dev.read_internal (addr - dev.devStart) size with
  | none => none
  | some v => some (v % 2 ^ (8 * size))

/-- The bus: DRAM (base `0x8000_0000`, byte content and size) plus the
ordered device list. -/
structure Bus where
  dramSize : Nat
  dram : Nat → Nat
  devices : List BusDevice

/-- `Bus::read<T>` with `size = sizeof(T)`: DRAM fast path, then the first
device containing the address; a miss yields none. -/
def Bus.read (b : Bus) (addr size : Nat) : Option Nat :=
  if dram_is_valid_addr b.dramSize addr size then
    some (leRead b.dram addr size)
  else
    match b.devices.find? (fun dev => dev.contains addr size) with
    | some dev => dev.read addr size
    | none => none

/-- `Bus::write<T>`: DRAM fast path; otherwise the first containing device's
`write_internal` is invoked and its boolean result discarded — the bus
returns true whenever an owner exists.  Returns the updated bus (only DRAM
content changes are modelled) and the bus-level success flag. -/
def Bus.write (b : Bus) (addr size v : Nat) : Bus × Bool :=
  if dram_is_valid_addr b.dramSize addr size then
    ({ b with dram := leWrite b.dram addr v size }, true)
  else
    match b.devices.find? (fun dev => dev.contains addr size) with
    | some dev =>
        let _accepted := dev.write_internal (addr - dev.devStart) size
          (v % 2 ^ (8 * size))
        (b, true)
    | none => (b, false)

/-- `Bus::accessible`.  Modelled from the spec: "accessible(addr) answers
whether any owner covers the address (used to pre-check misaligned
accesses)" — the member is used by the MMU sources but its body is not
among the given sources. -/
def Bus.accessible (b : Bus) (addr : Nat) : Bool :=
  dram_is_valid_addr b.dramSize addr 1 ||
    b.devices.any (fun dev => dev.contains addr 1)

/-- A device that rejects every access, for the C10 witness. -/
def rejectingDevice : BusDevice where
  devStart := 0x10000000
  devEnd := 0x10000FFF
  read_internal := fun _ _ => none
  write_internal := fun _ _ _ => false

/-- A bus with 4 MiB of DRAM and the rejecting device, for witnesses. -/
def demoDeviceBus : Bus where
  dramSize := 0x400000
  dram := fun _ => 0
  devices := [rejectingDevice]

/-! ## Sv39 address translation (`MMU::translate`, core/mmu.hpp) -/

inductive AccessType where
  | Fetch
  | Load
  | Store
deriving DecidableEq, Repr

/-- `MMU::raise_page_fault`. -/
def page_fault_cause : AccessType → TrapCause
  | .Fetch => .InstructionPageFault
  | .Load => .LoadPageFault
  | .Store => .StoreAMOPageFault

/-- `MMU::raise_access_fault`. -/
def access_fault_cause : AccessType → TrapCause
  | .Fetch => .InstructionAccessFault
  | .Load => .LoadAccessFault
  | .Store => .StoreAMOAccessFault

def PTE_V : Nat := 1 <<< 0

def PTE_R : Nat := 1 <<< 1

def PTE_W : Nat := 1 <<< 2

def PTE_X : Nat := 1 <<< 3

def PTE_U : Nat := 1 <<< 4

def PTE_G : Nat := 1 <<< 5

def PTE_A : Nat := 1 <<< 6

def PTE_D : Nat := 1 <<< 7

/-- The value written back by the A/D update: the PTE with A set, and D
too for stores (`new_pte` in the source). -/
def ad_new_pte (pte : Nat) (ty : AccessType) : Nat :=
  pte ||| PTE_A ||| (if ty = .Store then PTE_D else 0)

/-- The R/W/X permission check of the walk (`allowed` in the source). -/
def walk_allowed (pte : Nat) (mxr : Bool) : AccessType → Bool
  | .Fetch => decide (pte &&& PTE_X ≠ 0)
  | .Load => decide (pte &&& PTE_R ≠ 0 ∨ (mxr = true ∧ pte &&& PTE_X ≠ 0))
  | .Store => decide (pte &&& PTE_W ≠ 0)

/-- Physical-address composition at the end of the walk (superpage bits
come from the virtual address below the stopped level). -/
def sv39_pa (vaddr i pte_ppn : Nat) : Nat :=
  if i > 0 then
    ((pte_ppn &&& compl64 ((1 <<< (i * 9)) - 1)) |||
        ((vaddr >>> 12) &&& ((1 <<< (i * 9)) - 1))) <<< 12 |||
      (vaddr &&& 4095)
  else (pte_ppn <<< 12) ||| (vaddr &&& 4095)

/-- The leaf-PTE handling of `MMU::translate`: superpage alignment, U/S
compatibility, R/W/X permission, A/D update with write-back, and the
physical-address composition. -/
def sv39_leaf (bus : Bus) (pc vaddr : Nat) (ty : AccessType) (priv : Nat)
    (sum mxr adue : Bool) (i pte_addr pte pte_ppn : Nat) :
    MemResult Nat × List (Nat × Nat) × Bus :=
  if i > 0 ∧ pte_ppn &&& ((1 <<< (i * 9)) - 1) ≠ 0 then
    (.trap ⟨pc, page_fault_cause ty, vaddr⟩, [], bus)
  else if (pte &&& PTE_U ≠ 0) ∧ priv = privS ∧
      (ty = .Fetch ∨ sum = false) then
    (.trap ⟨pc, page_fault_cause ty, vaddr⟩, [], bus)
  else if ¬(pte &&& PTE_U ≠ 0) ∧ priv = privU then
    (.trap ⟨pc, page_fault_cause ty, vaddr⟩, [], bus)
  else if walk_allowed pte mxr ty = false then
    (.trap ⟨pc, page_fault_cause ty, vaddr⟩, [], bus)
  else if pte &&& PTE_A = 0 ∨ (ty = .Store ∧ pte &&& PTE_D = 0) then
    if adue = false then (.trap ⟨pc, page_fault_cause ty, vaddr⟩, [], bus)
    else if (Bus.write bus pte_addr 8 (ad_new_pte pte ty)).2 then
      (.ok (sv39_pa vaddr i pte_ppn), [(pte_addr, ad_new_pte pte ty)],
        (Bus.write bus pte_addr 8 (ad_new_pte pte ty)).1)
    else (.trap ⟨pc, access_fault_cause ty, vaddr⟩, [],
      (Bus.write bus pte_addr 8 (ad_new_pte pte ty)).1)
  else (.ok (sv39_pa vaddr i pte_ppn), [], bus)

/-- The page-table-walk loop of `MMU::translate`, from level `i` with table
base `a`.  Besides the source's result (physical address or fault) it
returns the list of PTE write-backs the bus performed during the walk and
the updated bus, so that theorems can speak about A/D updates. -/
def sv39_walk (bus : Bus) (pc vaddr : Nat) (ty : AccessType) (priv : Nat)
    (sum mxr adue : Bool) : (i : Nat) → (a : Nat) →
    MemResult Nat × List (Nat × Nat) × Bus
  | i, a =>
    match Bus.read bus
        (a + ((vaddr >>> (12 + i * 9)) &&& ((1 <<< 9) - 1)) * 8) 8 with
    | none => (.trap ⟨pc, access_fault_cause ty, vaddr⟩, [], bus)
    | some pte =>
      if pte &&& PTE_V = 0 ∨ (pte &&& PTE_R = 0 ∧ pte &&& PTE_W ≠ 0) then
        (.trap ⟨pc, page_fault_cause ty, vaddr⟩, [], bus)
      else if pte >>> 54 ≠ 0 then
        -- reserved bits, PBMT bits and PTE_N must not be set
        (.trap ⟨pc, page_fault_cause ty, vaddr⟩, [], bus)
      else if ¬(pte &&& PTE_R ≠ 0 ∨ pte &&& PTE_X ≠ 0) then
        -- non-leaf PTE: must have D = A = U = 0, then descend one level
        if pte &&& (PTE_D ||| PTE_A ||| PTE_U) ≠ 0 then
          (.trap ⟨pc, page_fault_cause ty, vaddr⟩, [], bus)
        else if hz : i = 0 then
          (.trap ⟨pc, page_fault_cause ty, vaddr⟩, [], bus)
        else
          sv39_walk bus pc vaddr ty priv sum mxr adue (i - 1)
            (((pte >>> 10) &&& ((1 <<< 44) - 1)) <<< 12)
      else
        sv39_leaf bus pc vaddr ty priv sum mxr adue i
          (a + ((vaddr >>> (12 + i * 9)) &&& ((1 <<< 9) - 1)) * 8) pte
          ((pte >>> 10) &&& ((1 <<< 44) - 1))
  termination_by i => i
  decreasing_by omega

/-- `MMU::translate`: effective privilege selection (MPRV/MPP for data
accesses), Bare/M-mode passthrough, canonicality check, then the Sv39
walk.  A satp MODE other than Bare/Sv39 is `std::terminate()`. -/
def MMU_translate (h : Hart) (bus : Bus) (pc vaddr : Nat)
    (ty : AccessType) : MemResult Nat × List (Nat × Nat) × Bus :=
  let mstatus := mstatus_read h.mstatus
  let priv := if ty ≠ .Fetch ∧ mstatus &&& MSTATUS.MPRV ≠ 0 then
      (mstatus &&& MSTATUS.MPP) >>> 11
    else h.priv
  if priv = privM then (.ok vaddr, [], bus)
  else
    let mode := (h.satp &&& SATP.MODE) >>> SATP.MODE_SHIFT
    if mode = SATP.Bare then (.ok vaddr, [], bus)
    else if mode ≠ SATP.Sv39 then (.fatal, [], bus)
    else if sext64 (vaddr % 2 ^ 39) 39 ≠ vaddr then
      (.trap ⟨pc, page_fault_cause ty, vaddr⟩, [], bus)
    else
      let ppn := (h.satp &&& SATP.PPN) >>> SATP.PPN_SHIFT
      let sum := decide (mstatus &&& MSTATUS.SUM ≠ 0)
      let mxr := decide (mstatus &&& MSTATUS.MXR ≠ 0)
      let adue := decide (menvcfg_read h.menvcfg &&& MENVCFG.ADUE ≠ 0)
      sv39_walk bus pc vaddr ty priv sum mxr adue 2 (ppn <<< 12)

/-- What a PTE write-back performed by the walk must look like: the written
address holds a valid leaf PTE of the original bus that passed the R/W/X
permission check, and the value written is that PTE with A (and D for
stores) set. -/
def ad_writeback_ok (bus : Bus) (ty : AccessType) (mxr : Bool)
    (w : Nat × Nat) : Prop :=
  ∃ pte, Bus.read bus w.1 8 = some pte ∧
    ¬(pte &&& PTE_V = 0 ∨ (pte &&& PTE_R = 0 ∧ pte &&& PTE_W ≠ 0)) ∧
    (pte &&& PTE_R ≠ 0 ∨ pte &&& PTE_X ≠ 0) ∧
    walk_allowed pte mxr ty = true ∧
    w.2 = ad_new_pte pte ty

/-- DRAM contents for the Sv39 demonstration machine: a three-level page
table rooted at PA `0x8000_0000` mapping VA page 0 to PA `0x8000_3000` with
a valid R+X+A leaf, a null (V = 0) PTE for VA page 1, and a 4-byte
instruction straddling the VA page boundary at `0xFFE`. -/
def demoMem : Nat → Nat := fun a =>
  if a = 0x80000000 then 0x01 else if a = 0x80000001 then 0x04
  else if a = 0x80000003 then 0x20
  else if a = 0x80001000 then 0x01 else if a = 0x80001001 then 0x08
  else if a = 0x80001003 then 0x20
  else if a = 0x80002000 then 0x4B else if a = 0x80002001 then 0x0C
  else if a = 0x80002003 then 0x20
  else if a = 0x80003FFE then 0x03
  else 0

/-- The demonstration bus: 4 MiB of DRAM holding `demoMem`, no devices. -/
def demoBus : Bus where
  dramSize := 0x400000
  dram := demoMem
  devices := []

/-- The demonstration hart: S-mode, satp pointing the Sv39 root at PA
`0x8000_0000`, pc at the final two bytes of VA page 0. -/
def demoHart : Hart :=
  { witnessHart 0 0 with
    pc := 0xFFE
    priv := privS
    satp := (8 <<< 60) ||| 0x80000 }

/-! ## MMU data accesses (`MMU::read` / `MMU::write`, core/mmu.hpp) -/

/-- The per-byte translation loop of the misaligned paths: translate each
byte's virtual address and pre-check bus accessibility, collecting physical
addresses; `n` bytes remain, `i` is the current byte index. -/
def mmu_translate_bytes (h : Hart) (pc addr : Nat) (ty : AccessType)
    (fault : TrapCause) : Bus → Nat → Nat → MemResult (List Nat) × Bus
  | bus, 0, _ => (.ok [], bus)
  | bus, n + 1, i =>
    match MMU_translate h bus pc (wrap64 (addr + i)) ty with
    | (.ok paddr, _, bus1) =>
      if Bus.accessible bus1 paddr then
        match mmu_translate_bytes h pc addr ty fault bus1 n (i + 1) with
        | (.ok rest, bus2) => (.ok (paddr :: rest), bus2)
        | (.trap t, bus2) => (.trap t, bus2)
        | (.fatal, bus2) => (.fatal, bus2)
      else (.trap ⟨pc, fault, addr⟩, bus1)
    | (.trap t, _, bus1) => (.trap t, bus1)
    | (.fatal, _, bus1) => (.fatal, bus1)

/-- The per-byte store loop of the misaligned write path: write the
little-endian bytes of `v` to the collected physical addresses. -/
def mmu_write_bytes (pc addr : Nat) : Bus → List Nat → Nat →
    MemResult Unit × Bus
  | bus, [], _ => (.ok (), bus)
  | bus, paddr :: rest, v =>
    if (Bus.write bus paddr 1 (v % 256)).2 then
      mmu_write_bytes pc addr (Bus.write bus paddr 1 (v % 256)).1 rest (v / 256)
    else (.trap ⟨pc, .StoreAMOAccessFault, addr⟩,
      (Bus.write bus paddr 1 (v % 256)).1)

/-- The per-byte load loop of the misaligned read path: read one byte per
collected physical address and reassemble little-endian. -/
def mmu_read_bytes (pc addr : Nat) (bus : Bus) : List Nat → MemResult Nat
  | [] => .ok 0
  | paddr :: rest =>
    match Bus.read bus paddr 1 with
    | none => .trap ⟨pc, .LoadAccessFault, addr⟩
    | some b =>
      match mmu_read_bytes pc addr bus rest with
      | .ok acc => .ok (b + 256 * acc)
      | .trap t => .trap t
      | .fatal => .fatal

/-- `MMU::write<T>` (`size = sizeof(T)`): translate-and-store, aligned fast
path plus the byte-wise misaligned path.  The MMU mutates only the bus; in
particular it never touches the LR/SC reservation. -/
def mmu_write (h : Hart) (bus : Bus) (pc addr v size : Nat) :
    MemResult Unit × Bus :=
  if addr % size = 0 then
    match MMU_translate h bus pc addr .Store with
    | (.ok paddr, _, bus1) =>
      if (Bus.write bus1 paddr size v).2 then
        (.ok (), (Bus.write bus1 paddr size v).1)
      else (.trap ⟨pc, .StoreAMOAccessFault, addr⟩,
        (Bus.write bus1 paddr size v).1)
    | (.trap t, _, bus1) => (.trap t, bus1)
    | (.fatal, _, bus1) => (.fatal, bus1)
  else
    match mmu_translate_bytes h pc addr .Store .StoreAMOAccessFault bus
        size 0 with
    | (.ok paddrs, bus1) => mmu_write_bytes pc addr bus1 paddrs v
    | (.trap t, bus1) => (.trap t, bus1)
    | (.fatal, bus1) => (.fatal, bus1)

/-- `MMU::read<T>` (`size = sizeof(T)`): translate-and-load, aligned fast
path plus the byte-wise misaligned path. -/
def mmu_read (h : Hart) (bus : Bus) (pc addr size : Nat) :
    MemResult Nat × Bus :=
  if addr % size = 0 then
    match MMU_translate h bus pc addr .Load with
    | (.ok paddr, _, bus1) =>
      match Bus.read bus1 paddr size with
      | none => (.trap ⟨pc, .LoadAccessFault, addr⟩, bus1)
      | some v => (.ok v, bus1)
    | (.trap t, _, bus1) => (.trap t, bus1)
    | (.fatal, _, bus1) => (.fatal, bus1)
  else
    match mmu_translate_bytes h pc addr .Load .LoadAccessFault bus size 0 with
    | (.ok paddrs, bus1) => (mmu_read_bytes pc addr bus1 paddrs, bus1)
    | (.trap t, bus1) => (.trap t, bus1)
    | (.fatal, bus1) => (.fatal, bus1)

/-- A hart together with its bus and the MMU's LR/SC reservation
(`reservation_address` / `reservation_valid`, core/mmu.hpp). -/
structure Machine where
  hart : Hart
  bus : Bus
  reservation_address : Nat
  reservation_valid : Bool

/-- `exec_sw`: an ordinary 32-bit store; goes through `MMU::write` only. -/
def exec_sw (m : Machine) (d : DecodedInsn) : MemResult Unit × Machine :=
  match mmu_write m.hart m.bus d.pc
      (wrap64 (gprRead m.hart.gprs d.rs1 + d.imm))
      (bitsOf (gprRead m.hart.gprs d.rs2) 31 0) 4 with
  | (r, bus2) => (r, { m with bus := bus2 })

/-- `exec_sd`: an ordinary 64-bit store; goes through `MMU::write` only. -/
def exec_sd (m : Machine) (d : DecodedInsn) : MemResult Unit × Machine :=
  match mmu_write m.hart m.bus d.pc
      (wrap64 (gprRead m.hart.gprs d.rs1 + d.imm))
      (gprRead m.hart.gprs d.rs2) 8 with
  | (r, bus2) => (r, { m with bus := bus2 })

/-- `exec_lr_w`: load-reserved; on success writes rd and establishes the
reservation on the (possibly just-overwritten) R[rs1]. -/
def exec_lr_w (m : Machine) (d : DecodedInsn) : MemResult Unit × Machine :=
  match mmu_read m.hart m.bus d.pc (gprRead m.hart.gprs d.rs1) 4 with
  | (.ok v, bus1) =>
    let gprs2 := gprWrite m.hart.gprs d.rd (sext64 v 32)
    (.ok (), { m with
      bus := bus1,
      hart := { m.hart with gprs := gprs2 },
      reservation_address := gprRead gprs2 d.rs1,
      reservation_valid := true })
  | (.trap t, bus1) => (.trap t, { m with bus := bus1 })
  | (.fatal, bus1) => (.fatal, { m with bus := bus1 })

/-- `exec_sc_w`: store-conditional; succeeds iff the reservation is valid
and matches R[rs1]; writes 0/1 to rd and clears the reservation (the clear
is skipped if the store itself traps, because the exception propagates). -/
def exec_sc_w (m : Machine) (d : DecodedInsn) : MemResult Unit × Machine :=
  if m.reservation_valid = true ∧
      m.reservation_address = gprRead m.hart.gprs d.rs1 then
    match mmu_write m.hart m.bus d.pc (gprRead m.hart.gprs d.rs1)
        (gprRead m.hart.gprs d.rs2) 4 with
    | (.ok _, bus1) =>
      (.ok (), { m with
        bus := bus1,
        hart := { m.hart with gprs := gprWrite m.hart.gprs d.rd 0 },
        reservation_valid := false })
    | (.trap t, bus1) => (.trap t, { m with bus := bus1 })
    | (.fatal, bus1) => (.fatal, { m with bus := bus1 })
  else
    (.ok (), { m with
      hart := { m.hart with gprs := gprWrite m.hart.gprs d.rd 1 },
      reservation_valid := false })

/-- A machine for the LR/SC demonstration: M-mode hart over the
demonstration bus, x1 = A = `0x8000_0100`, x2 and x3 two distinct store
values, no reservation yet. -/
def lrscMachine : Machine where
  hart := { witnessHart 0 0 with
    gprs := fun i => if i = 1 then 0x80000100 else if i = 2 then 0x11223344
      else if i = 3 then 0x55667788 else 0 }
  bus := demoBus
  reservation_address := 0
  reservation_valid := false

/-- LR.W x4, (x1). -/
def lrInsn : DecodedInsn := { witnessInsn with rd := 4 }

/-- SW x2, 0(x1). -/
def swInsn : DecodedInsn := { witnessInsn with rd := 0 }

/-- SC.W x5, x3, (x1). -/
def scInsn : DecodedInsn := { witnessInsn with rd := 5, rs2 := 3 }

/-! ## Instruction fetch (`MMU::ifetch`, core/mmu.hpp) -/

/-- `Ilen` (core/decoder.hpp): length class of a fetched instruction. -/
inductive Ilen where
  | Compressed
  | Normal
deriving DecidableEq, Repr

/-- `MMU::may_cross_page`: the PC lies at the final two bytes of a page
(`(pc & (PGSIZE - 1)) == PGSIZE - 2`). -/
def may_cross_page (pc : Nat) : Bool :=
  decide (pc &&& (4096 - 1) = 4096 - 2)

/-- Second stage of the cross-page fetch: the first halfword `insn` has
been read; if compressed, return it, otherwise translate `pc + 2`, read
the upper halfword and combine.  `Decoder::is_compressed` is not among the
sources, so fetch is parameterized over it (`isC`). -/
def ifetch_cross_second (h : Hart) (bus1 : Bus) (isC : Nat → Bool)
    (insn : Nat) : MemResult (Nat × Ilen) × List Nat × Bus :=
  if isC insn then (.ok (insn, .Compressed), [h.pc], bus1)
  else
    match MMU_translate h bus1 h.pc (wrap64 (h.pc + 2)) .Fetch with
    | (.ok paddr2, _, bus2) =>
      match Bus.read bus2 paddr2 2 with
      | none => (.trap ⟨h.pc, .InstructionAccessFault, wrap64 (h.pc + 2)⟩,
          [h.pc, wrap64 (h.pc + 2)], bus2)
      | some v2 => (.ok ((insn &&& 0xFFFF) ||| (v2 <<< 16), .Normal),
          [h.pc, wrap64 (h.pc + 2)], bus2)
    | (.trap t, _, bus2) => (.trap t, [h.pc, wrap64 (h.pc + 2)], bus2)
    | (.fatal, _, bus2) => (.fatal, [h.pc, wrap64 (h.pc + 2)], bus2)

/-- First stage of the cross-page fetch: the first halfword's physical
address is known; read it and hand over to `ifetch_cross_second`. -/
def ifetch_cross_read (h : Hart) (bus1 : Bus) (isC : Nat → Bool)
    (paddr : Nat) : MemResult (Nat × Ilen) × List Nat × Bus :=
  match Bus.read bus1 paddr 2 with
  | none => (.trap ⟨h.pc, .InstructionAccessFault, h.pc⟩, [h.pc], bus1)
  | some insn => ifetch_cross_second h bus1 isC insn

/-- `MMU::ifetch`: one aligned 32-bit read in the common case; at the last
two bytes of a page, one or two 16-bit reads with separate translations.
Alongside the source's result it returns the list of virtual addresses
that were submitted to `translate`, so that theorems can speak about which
pages the fetch touched. -/
def MMU_ifetch (h : Hart) (bus : Bus) (isC : Nat → Bool) :
    MemResult (Nat × Ilen) × List Nat × Bus :=
  if may_cross_page h.pc = false then
    match MMU_translate h bus h.pc h.pc .Fetch with
    | (.ok paddr, _, bus1) =>
      match Bus.read bus1 paddr 4 with
      | none => (.trap ⟨h.pc, .InstructionAccessFault, h.pc⟩, [h.pc], bus1)
      | some insn =>
        if isC insn then (.ok (insn &&& 0xFFFF, .Compressed), [h.pc], bus1)
        else (.ok (insn, .Normal), [h.pc], bus1)
    | (.trap t, _, bus1) => (.trap t, [h.pc], bus1)
    | (.fatal, _, bus1) => (.fatal, [h.pc], bus1)
  else
    match MMU_translate h bus h.pc h.pc .Fetch with
    | (.ok paddr, _, bus1) => ifetch_cross_read h bus1 isC paddr
    | (.trap t, _, bus1) => (.trap t, [h.pc], bus1)
    | (.fatal, _, bus1) => (.fatal, [h.pc], bus1)

/-- Modelled from the spec: an RV instruction is compressed iff its low
two bits are not `11` (the sources do not contain
`Decoder::is_compressed`). -/
def rvc_is_compressed (insn : Nat) : Bool := decide (insn &&& 3 ≠ 3)

/-! ## Claim C8: satp writes with unsupported MODE are ignored -/

/-- C8: for every write to satp whose MODE field is neither Bare (0) nor
Sv39 (8), the entire write has no effect: the stored satp value, hence its
MODE, ASID and PPN fields, all retain their previous values. -/
theorem satp_unsupported_mode_write_ignored (old v : Nat)
    (h : (v &&& SATP.MODE) >>> SATP.MODE_SHIFT ≠ SATP.Bare ∧
      (v &&& SATP.MODE) >>> SATP.MODE_SHIFT ≠ SATP.Sv39) :
    satp_write_unchecked old v = old ∧
      satp_write_unchecked old v &&& SATP.MODE = old &&& SATP.MODE ∧
      satp_write_unchecked old v &&& SATP.ASID = old &&& SATP.ASID ∧
      satp_write_unchecked old v &&& SATP.PPN = old &&& SATP.PPN := by
  have : satp_write_unchecked old v = old := by
    unfold satp_write_unchecked
    simp only []
    rw [if_neg]
    rintro ⟨-, hmode⟩
    rcases hmode with hb | hs
    · exact h.1 hb
    · exact h.2 hs
  exact ⟨this, by rw [this], by rw [this], by rw [this]⟩

/-- Witness for C8 at a concrete input: writing a value with MODE = Sv48 (9)
leaves a previously stored Sv39 satp value untouched. -/
theorem satp_unsupported_mode_write_ignored_witness :
    satp_write_unchecked (8 <<< 60 ||| 0x80000) (9 <<< 60 ||| 0x12345) =
      (8 <<< 60 ||| 0x80000) :=
  (satp_unsupported_mode_write_ignored (8 <<< 60 ||| 0x80000)
    (9 <<< 60 ||| 0x12345) (by decide)).1

/-! ## Bit-level helper lemmas -/

theorem testBit_one_shiftLeft (k i : Nat) :
    ((1 <<< k : Nat)).testBit i = decide (k = i) := by
  rw [Nat.one_shiftLeft]; exact Nat.testBit_two_pow

theorem testBit_compl64 (m i : Nat) :
    (compl64 m).testBit i = (decide (i < 64) ^^ m.testBit i) := by
  unfold compl64
  rw [Nat.testBit_xor, Nat.testBit_two_pow_sub_one]

/-! ## Integer reinterpretation lemmas -/

theorem i64_eq_zero_iff (n : Nat) (h : n < 2 ^ 64) : i64 n = 0 ↔ n = 0 := by
  unfold i64
  rw [Nat.mod_eq_of_lt h]
  have h63 : (2 : Nat) ^ 63 = 9223372036854775808 := by norm_num
  have h64i : (2 : Int) ^ 64 = 18446744073709551616 := by norm_num
  rw [h63, h64i]
  split <;> omega

theorem i64_eq_min_iff (n : Nat) (h : n < 2 ^ 64) :
    i64 n = -(2 ^ 63) ↔ n = 2 ^ 63 := by
  unfold i64
  rw [Nat.mod_eq_of_lt h]
  have h64 : (2 : Nat) ^ 64 = 18446744073709551616 := by norm_num
  have h63 : (2 : Nat) ^ 63 = 9223372036854775808 := by norm_num
  have h64i : (2 : Int) ^ 64 = 18446744073709551616 := by norm_num
  have h63i : (2 : Int) ^ 63 = 9223372036854775808 := by norm_num
  rw [h63, h64i, h63i]
  rw [h64] at h
  split <;> omega

theorem i64_eq_neg_one_iff (n : Nat) (h : n < 2 ^ 64) :
    i64 n = -1 ↔ n = 2 ^ 64 - 1 := by
  unfold i64
  rw [Nat.mod_eq_of_lt h]
  have h64 : (2 : Nat) ^ 64 = 18446744073709551616 := by norm_num
  have h63 : (2 : Nat) ^ 63 = 9223372036854775808 := by norm_num
  have h64i : (2 : Int) ^ 64 = 18446744073709551616 := by norm_num
  rw [h63, h64i, h64]
  rw [h64] at h
  split <;> omega

theorem u64ofInt_i64 (n : Nat) (h : n < 2 ^ 64) : u64ofInt (i64 n) = n := by
  unfold u64ofInt i64
  rw [Nat.mod_eq_of_lt h]
  have h64 : (2 : Nat) ^ 64 = 18446744073709551616 := by norm_num
  have h63 : (2 : Nat) ^ 63 = 9223372036854775808 := by norm_num
  have h64i : (2 : Int) ^ 64 = 18446744073709551616 := by norm_num
  rw [h63, h64i, h64] at *
  split <;> omega

theorem i32_eq_zero_iff (n : Nat) (h : n < 2 ^ 32) : i32 n = 0 ↔ n = 0 := by
  unfold i32
  rw [Nat.mod_eq_of_lt h]
  have h31 : (2 : Nat) ^ 31 = 2147483648 := by norm_num
  have h32i : (2 : Int) ^ 32 = 4294967296 := by norm_num
  rw [h31, h32i]
  split <;> omega

theorem i32_eq_min_iff (n : Nat) (h : n < 2 ^ 32) :
    i32 n = -(2 ^ 31) ↔ n = 2 ^ 31 := by
  unfold i32
  rw [Nat.mod_eq_of_lt h]
  have h32 : (2 : Nat) ^ 32 = 4294967296 := by norm_num
  have h31 : (2 : Nat) ^ 31 = 2147483648 := by norm_num
  have h32i : (2 : Int) ^ 32 = 4294967296 := by norm_num
  have h31i : (2 : Int) ^ 31 = 2147483648 := by norm_num
  rw [h31, h32i, h31i]
  rw [h32] at h
  split <;> omega

theorem i32_eq_neg_one_iff (n : Nat) (h : n < 2 ^ 32) :
    i32 n = -1 ↔ n = 2 ^ 32 - 1 := by
  unfold i32
  rw [Nat.mod_eq_of_lt h]
  have h32 : (2 : Nat) ^ 32 = 4294967296 := by norm_num
  have h31 : (2 : Nat) ^ 31 = 2147483648 := by norm_num
  have h32i : (2 : Int) ^ 32 = 4294967296 := by norm_num
  rw [h31, h32i, h32]
  rw [h32] at h
  split <;> omega

/-- Converting an `int32_t` value back to a 64-bit register pattern is the
32-bit sign extension of its low bits. -/
theorem u64ofInt_i32 (n : Nat) (h : n < 2 ^ 32) :
    u64ofInt (i32 n) = sext64 n 32 := by
  unfold u64ofInt i32 sext64
  rw [Nat.mod_eq_of_lt h]
  have h32 : (2 : Nat) ^ 32 = 4294967296 := by norm_num
  have h31 : (2 : Nat) ^ 31 = 2147483648 := by norm_num
  have h64 : (2 : Nat) ^ 64 = 18446744073709551616 := by norm_num
  have h32i : (2 : Int) ^ 32 = 4294967296 := by norm_num
  have h64i : (2 : Int) ^ 64 = 18446744073709551616 := by norm_num
  simp only [show ¬((32 : Nat) = 0 ∨ 64 ≤ 32) by decide, if_false]
  rw [h31, h32i, h64i, h32, h64]
  rw [h32] at h
  split_ifs <;> omega

/-- 32-bit sign extension is idempotent on 32-bit inputs. -/
theorem sext64_32_idem (x : Nat) (h : x < 2 ^ 32) :
    sext64 (sext64 x 32) 32 = sext64 x 32 := by
  unfold sext64
  simp only [show ¬((32 : Nat) = 0 ∨ 64 ≤ 32) by decide, if_false]
  have h32 : (2 : Nat) ^ 32 = 4294967296 := by norm_num
  have h31 : (2 : Nat) ^ 31 = 2147483648 := by norm_num
  have h64 : (2 : Nat) ^ 64 = 18446744073709551616 := by norm_num
  simp only [show (32 : Nat) - 1 = 31 from rfl, h32, h31, h64]
  rw [h32] at h
  split_ifs <;> omega

theorem bitsOf_31_0_lt (x : Nat) : bitsOf x 31 0 < 2 ^ 32 := by
  unfold bitsOf
  exact Nat.mod_lt _ (by norm_num)

/-- C9: division by zero writes all-ones of the result width, remainder by
zero writes the dividend; signed overflow (most negative dividend by -1)
makes DIV/DIVW write the dividend and REM/REMW write 0.  Registers hold
64-bit values (`< 2 ^ 64`). -/
theorem div_rem_special_cases (h : Hart) (d : DecodedInsn)
    (h1 : gprRead h.gprs d.rs1 < 2 ^ 64) (h2 : gprRead h.gprs d.rs2 < 2 ^ 64) :
    (gprRead h.gprs d.rs2 = 0 →
      (exec_div h d).gprs = gprWrite h.gprs d.rd (2 ^ 64 - 1) ∧
      (exec_divu h d).gprs = gprWrite h.gprs d.rd (2 ^ 64 - 1) ∧
      (exec_rem h d).gprs = gprWrite h.gprs d.rd (gprRead h.gprs d.rs1) ∧
      (exec_remu h d).gprs = gprWrite h.gprs d.rd (gprRead h.gprs d.rs1)) ∧
    (bitsOf (gprRead h.gprs d.rs2) 31 0 = 0 →
      (exec_divw h d).gprs = gprWrite h.gprs d.rd (2 ^ 64 - 1) ∧
      (exec_divuw h d).gprs = gprWrite h.gprs d.rd (2 ^ 64 - 1) ∧
      (exec_remw h d).gprs =
        gprWrite h.gprs d.rd (sext64 (bitsOf (gprRead h.gprs d.rs1) 31 0) 32) ∧
      (exec_remuw h d).gprs =
        gprWrite h.gprs d.rd (sext64 (bitsOf (gprRead h.gprs d.rs1) 31 0) 32)) ∧
    (gprRead h.gprs d.rs1 = 2 ^ 63 → gprRead h.gprs d.rs2 = 2 ^ 64 - 1 →
      (exec_div h d).gprs = gprWrite h.gprs d.rd (gprRead h.gprs d.rs1) ∧
      (exec_rem h d).gprs = gprWrite h.gprs d.rd 0) ∧
    (bitsOf (gprRead h.gprs d.rs1) 31 0 = 2 ^ 31 →
      bitsOf (gprRead h.gprs d.rs2) 31 0 = 2 ^ 32 - 1 →
      (exec_divw h d).gprs =
        gprWrite h.gprs d.rd (sext64 (bitsOf (gprRead h.gprs d.rs1) 31 0) 32) ∧
      (exec_remw h d).gprs = gprWrite h.gprs d.rd 0) := by
  have w1 := bitsOf_31_0_lt (gprRead h.gprs d.rs1)
  have w2 := bitsOf_31_0_lt (gprRead h.gprs d.rs2)
  refine ⟨?_, ?_, ?_, ?_⟩
  · intro hz
    have hiz : i64 (gprRead h.gprs d.rs2) = 0 := (i64_eq_zero_iff _ h2).mpr hz
    refine ⟨?_, ?_, ?_, ?_⟩
    · simp only [exec_div]; rw [if_pos hiz]
    · simp only [exec_divu]; rw [if_pos hz]
    · simp only [exec_rem]; rw [if_pos hiz, u64ofInt_i64 _ h1]
    · simp only [exec_remu]; rw [if_pos hz]
  · intro hz
    have hiz : i32 (bitsOf (gprRead h.gprs d.rs2) 31 0) = 0 :=
      (i32_eq_zero_iff _ w2).mpr hz
    refine ⟨?_, ?_, ?_, ?_⟩
    · simp only [exec_divw]; rw [if_pos hiz]
    · simp only [exec_divuw]; rw [if_pos hz]
    · simp only [exec_remw]; rw [if_pos hiz, u64ofInt_i32 _ w1, sext64_32_idem _ w1]
    · simp only [exec_remuw]; rw [if_pos hz]
  · intro hmin hneg
    have hiz : ¬i64 (gprRead h.gprs d.rs2) = 0 := by
      rw [i64_eq_zero_iff _ h2, hneg]; norm_num
    have hov : i64 (gprRead h.gprs d.rs1) = -(2 ^ 63) ∧
        i64 (gprRead h.gprs d.rs2) = -1 :=
      ⟨(i64_eq_min_iff _ h1).mpr hmin, (i64_eq_neg_one_iff _ h2).mpr hneg⟩
    refine ⟨?_, ?_⟩
    · simp only [exec_div]
      rw [if_neg hiz, if_pos hov, u64ofInt_i64 _ h1]
    · simp only [exec_rem]; rw [if_neg hiz, if_pos hov]
  · intro hmin hneg
    have hiz : ¬i32 (bitsOf (gprRead h.gprs d.rs2) 31 0) = 0 := by
      rw [i32_eq_zero_iff _ w2, hneg]; norm_num
    have hov : i32 (bitsOf (gprRead h.gprs d.rs1) 31 0) = -(2 ^ 31) ∧
        i32 (bitsOf (gprRead h.gprs d.rs2) 31 0) = -1 :=
      ⟨(i32_eq_min_iff _ w1).mpr hmin, (i32_eq_neg_one_iff _ w2).mpr hneg⟩
    refine ⟨?_, ?_⟩
    · simp only [exec_divw]
      rw [if_neg hiz, if_pos hov, u64ofInt_i32 _ w1, sext64_32_idem _ w1]
    · simp only [exec_remw]; rw [if_neg hiz, if_pos hov]

/-- Witness for C9 at the signed-overflow input: INT64_MIN divided by -1
gives quotient INT64_MIN and remainder 0. -/
theorem div_rem_special_cases_witness :
    (exec_div (witnessHart (2 ^ 63) (2 ^ 64 - 1)) witnessInsn).gprs =
      gprWrite (witnessHart (2 ^ 63) (2 ^ 64 - 1)).gprs 3 (2 ^ 63) ∧
    (exec_rem (witnessHart (2 ^ 63) (2 ^ 64 - 1)) witnessInsn).gprs =
      gprWrite (witnessHart (2 ^ 63) (2 ^ 64 - 1)).gprs 3 0 := by
  have := (div_rem_special_cases (witnessHart (2 ^ 63) (2 ^ 64 - 1))
    witnessInsn (by decide) (by decide)).2.2.1 (by decide) (by decide)
  exact this

/-- C2: executing SRET on `sretBugHart` succeeds and switches to U-mode
(the new privilege, taken from sstatus.SPP, is indeed not M), but
mstatus.MPRV still reads as 1 afterwards: the executor's MPRV clear is
filtered out by the SSTATUS write mask, contradicting the claim that MPRV
reads as 0 after every successful SRET. -/
theorem sret_leaves_mprv_set :
    (exec_sret sretBugHart witnessInsn).isOk = true ∧
    (hartOf (exec_sret sretBugHart witnessInsn) sretBugHart).priv = privU ∧
    mstatus_read
        (hartOf (exec_sret sretBugHart witnessInsn) sretBugHart).mstatus &&&
      MSTATUS.MPRV = MSTATUS.MPRV := by decide

/-- C3: misa advertises the compressed extension (bit 2 set), yet a taken
BEQ and a JAL to target pc + 2 — an address the compressed extension makes
legal — raise Instruction Address Misaligned with the target as tval,
because the executors test `npc & 0x3` instead of `npc & 0x1`. -/
theorem branch_bit1_target_traps_despite_misa_c :
    (MISA_VALUE >>> 2) &&& 1 = 1 ∧
    (0x80000002 : Nat) &&& 1 = 0 ∧ (0x80000002 : Nat) &&& 2 ≠ 0 ∧
    (exec_beq (witnessHart 5 5) branchBugInsn).trapOf =
      some ⟨0x80000000, .InstructionAddressMisaligned, 0x80000002⟩ ∧
    (exec_jal (witnessHart 5 5) branchBugInsn).trapOf =
      some ⟨0x80000000, .InstructionAddressMisaligned, 0x80000002⟩ := by
  decide

/-! ## Claim C5: write suppression of the counter auto-increment -/

/-- C5 counterexample: the claim also asserts suppression for mcycle, but
`MCYCLE` has no suppression at all.  With no inhibit bits set, writing 7 to
mcycle through the checked path and then advancing yields 8, not 7. -/
theorem mcycle_write_then_advance_increments :
    (mcycle_write_checked (witnessHart 0 0) witnessInsn 7).isOk = true ∧
    (mcycle_advance (hartOf (mcycle_write_checked (witnessHart 0 0)
      witnessInsn 7) (witnessHart 0 0))).mcycle = 8 ∧ (8 : Nat) ≠ 7 := by
  decide

/-- C5 amended: only minstret suppresses the auto-increment that follows a
checked CSR write; after a checked write of `v < 2 ^ 64` to minstret the
next `advance()` leaves `v` unchanged (whatever mcountinhibit holds), while
after a checked write to mcycle the next `advance()` still increments
whenever `mcountinhibit.CY` is clear. -/
theorem counter_write_suppression_amended (h : Hart) (d : DecodedInsn)
    (v : Nat) (hp : h.priv = privM) :
    (∀ h1, minstret_write_checked h d v = .ok h1 →
      (minstret_advance h1).minstret = v) ∧
    (∀ h1, mcycle_write_checked h d v = .ok h1 →
      mcountinhibit_read h.mcountinhibit &&& MCOUNTINHIBIT.CY = 0 →
      (mcycle_advance h1).mcycle = wrap64 (v + 1)) := by
  have hperm : csr_check_permissions h privM = true := by
    simp [csr_check_permissions, hp]
  constructor
  · intro h1 h1eq
    rw [minstret_write_checked, if_pos hperm] at h1eq
    cases h1eq
    simp [minstret_advance]
  · intro h1 h1eq hcy
    rw [mcycle_write_checked, if_pos hperm] at h1eq
    cases h1eq
    simp [mcycle_advance, hcy]

/-- Witness for C5's amended theorem at a concrete input: writes of 7 to
minstret and mcycle, followed by one advance each. -/
theorem counter_write_suppression_amended_witness :
    (∀ h1, minstret_write_checked (witnessHart 0 0) witnessInsn 7 = .ok h1 →
      (minstret_advance h1).minstret = 7) ∧
    (∀ h1, mcycle_write_checked (witnessHart 0 0) witnessInsn 7 = .ok h1 →
      mcountinhibit_read (witnessHart 0 0).mcountinhibit &&&
        MCOUNTINHIBIT.CY = 0 →
      (mcycle_advance h1).mcycle = wrap64 (7 + 1)) :=
  counter_write_suppression_amended (witnessHart 0 0) witnessInsn 7 rfl

/-! ## Single-bit mask lemmas -/

theorem and_pow2_eq (x k : Nat) :
    x &&& (1 <<< k) = if x.testBit k then 1 <<< k else 0 := by
  apply Nat.eq_of_testBit_eq
  intro i
  rw [Nat.testBit_and, testBit_one_shiftLeft]
  by_cases hk : k = i
  · subst hk
    cases hx : x.testBit k <;> simp [hx, testBit_one_shiftLeft]
  · have hd : decide (k = i) = false := by simp [hk]
    rw [hd, Bool.and_false]
    split
    · rw [testBit_one_shiftLeft, hd]
    · rw [Nat.zero_testBit]

theorem and_single_ne_zero (x k : Nat) :
    x &&& (1 <<< k) ≠ 0 ↔ x.testBit k = true := by
  rw [and_pow2_eq]
  have hpos : 0 < 1 <<< k := by rw [Nat.one_shiftLeft]; exact Nat.two_pow_pos k
  cases hx : x.testBit k <;> simp <;> omega

theorem and_single_eq_of_testBit (x y k : Nat)
    (h : x.testBit k = y.testBit k) :
    x &&& (1 <<< k) = y &&& (1 <<< k) := by
  rw [and_pow2_eq, and_pow2_eq, h]

theorem and_single_eq_self (x k : Nat) (h : x.testBit k = true) :
    x &&& (1 <<< k) = 1 <<< k := by
  rw [and_pow2_eq, h, if_pos rfl]

theorem and_mpp_eq_zero (x : Nat) (h11 : x.testBit 11 = false)
    (h12 : x.testBit 12 = false) : x &&& MSTATUS.MPP = 0 := by
  apply Nat.eq_of_testBit_eq
  intro i
  rw [Nat.testBit_and, MSTATUS.MPP, Nat.testBit_or, testBit_one_shiftLeft,
    testBit_one_shiftLeft, Nat.zero_testBit]
  by_cases h1 : (11 : Nat) = i
  · subst h1; simp [h11]
  · by_cases h2 : (12 : Nat) = i
    · subst h2; simp [h12]
    · simp [h1, h2]

/-- Read the 2-bit MPP field of a value whose bits 11 and 12 hold `p < 4`. -/
theorem mpp_field_value (x p : Nat) (hp : p < 4)
    (h11 : x.testBit 11 = p.testBit 0) (h12 : x.testBit 12 = p.testBit 1) :
    (x &&& MSTATUS.MPP) >>> 11 = p := by
  have hx : x &&& MSTATUS.MPP = p <<< 11 := by
    apply Nat.eq_of_testBit_eq
    intro i
    rw [Nat.testBit_and, MSTATUS.MPP, Nat.testBit_or, testBit_one_shiftLeft,
      testBit_one_shiftLeft, Nat.testBit_shiftLeft]
    by_cases h1 : (11 : Nat) = i
    · subst h1; simp [h11]
    · by_cases h2 : (12 : Nat) = i
      · subst h2
        simp [h12, show (12 : Nat) - 11 = 1 from rfl]
      · by_cases hle : 11 ≤ i
        · have hbf : p.testBit (i - 11) = false := by
            apply Nat.testBit_lt_two_pow
            calc p < 4 := hp
              _ = 2 ^ 2 := rfl
              _ ≤ 2 ^ (i - 11) := Nat.pow_le_pow_right (by norm_num) (by omega)
          simp [h1, h2, hbf]
        · simp [h1, h2, hle]
  rw [hx]
  simp [Nat.shiftLeft_eq, Nat.shiftRight_eq_div_pow]

/-- `MSTATUS::write_unchecked` bit by bit, below the derived SD bit: bits in
the write mask come from the written value, others keep the stored value. -/
theorem mstatus_write_testBit (s v i : Nat) (hi : i < 63) :
    (mstatus_write_unchecked s v).testBit i =
      if MSTATUS.WRITE_MASK.testBit i then v.testBit i else s.testBit i := by
  have hSD : MSTATUS.SD.testBit i = false := by
    rw [MSTATUS.SD, testBit_one_shiftLeft]
    simp only [decide_eq_false_iff_not]
    omega
  have h64 : decide (i < 64) = true := by simp; omega
  simp only [mstatus_write_unchecked]
  split
  · rw [Nat.testBit_or, hSD, Bool.or_false, Nat.testBit_or, Nat.testBit_and,
      Nat.testBit_and, testBit_compl64, h64]
    cases hw : MSTATUS.WRITE_MASK.testBit i <;> simp
  · rw [Nat.testBit_and, testBit_compl64, hSD, h64, Nat.testBit_or,
      Nat.testBit_and, Nat.testBit_and, testBit_compl64, h64]
    cases hw : MSTATUS.WRITE_MASK.testBit i <;> simp

/-! ## Claim C4: trap dispatch to M followed by MRET -/

/-- `mstatus` read back after an unchecked write, bit by bit, for bits in
both masks. -/
theorem read_write_testBit (s v i : Nat) (hi : i < 63)
    (hr : MSTATUS.READ_MASK.testBit i = true)
    (hw : MSTATUS.WRITE_MASK.testBit i = true) :
    (mstatus_read (mstatus_write_unchecked s v)).testBit i = v.testBit i := by
  rw [mstatus_read, Nat.testBit_and, hr, Bool.and_true,
    mstatus_write_testBit _ _ _ hi, if_pos hw]

theorem MPP_testBit (i : Nat) :
    MSTATUS.MPP.testBit i = (decide (11 = i) || decide (12 = i)) := by
  rw [MSTATUS.MPP, Nat.testBit_or, testBit_one_shiftLeft, testBit_one_shiftLeft]

theorem or_single_testBit (x k i : Nat) (hne : ¬k = i) :
    (x ||| (1 <<< k)).testBit i = x.testBit i := by
  rw [Nat.testBit_or, testBit_one_shiftLeft]
  simp [hne]

theorem or_single_testBit_self (x k : Nat) :
    (x ||| (1 <<< k)).testBit k = true := by
  rw [Nat.testBit_or, testBit_one_shiftLeft]
  simp

theorem and_compl_single_testBit (x k i : Nat) (hi : i < 64) (hne : ¬k = i) :
    (x &&& compl64 (1 <<< k)).testBit i = x.testBit i := by
  rw [Nat.testBit_and, testBit_compl64, testBit_one_shiftLeft]
  simp [hne, hi]

theorem and_compl_single_testBit_self (x k : Nat) (hk : k < 64) :
    (x &&& compl64 (1 <<< k)).testBit k = false := by
  rw [Nat.testBit_and, testBit_compl64, testBit_one_shiftLeft]
  simp [hk]

theorem and_compl_mpp_testBit (x i : Nat) (hi : i < 64) (h1 : ¬(11 : Nat) = i)
    (h2 : ¬(12 : Nat) = i) :
    (x &&& compl64 MSTATUS.MPP).testBit i = x.testBit i := by
  rw [Nat.testBit_and, testBit_compl64, MPP_testBit]
  simp [h1, h2, hi]

theorem and_compl_mpp_testBit_11 (x : Nat) :
    (x &&& compl64 MSTATUS.MPP).testBit 11 = false := by
  rw [Nat.testBit_and, testBit_compl64, MPP_testBit]
  simp

theorem and_compl_mpp_testBit_12 (x : Nat) :
    (x &&& compl64 MSTATUS.MPP).testBit 12 = false := by
  rw [Nat.testBit_and, testBit_compl64, MPP_testBit]
  simp

theorem trap_m_arg_testBit11 (x p : Nat) :
    (trap_m_mstatus_arg x p).testBit 11 = p.testBit 0 := by
  simp only [trap_m_mstatus_arg]
  rw [show MSTATUS.MIE = 1 <<< 3 from rfl,
    and_compl_single_testBit _ 3 11 (by norm_num) (by norm_num),
    Nat.testBit_or, and_compl_mpp_testBit_11, Nat.testBit_shiftLeft]
  simp

theorem trap_m_arg_testBit12 (x p : Nat) :
    (trap_m_mstatus_arg x p).testBit 12 = p.testBit 1 := by
  simp only [trap_m_mstatus_arg]
  rw [show MSTATUS.MIE = 1 <<< 3 from rfl,
    and_compl_single_testBit _ 3 12 (by norm_num) (by norm_num),
    Nat.testBit_or, and_compl_mpp_testBit_12, Nat.testBit_shiftLeft]
  simp

theorem trap_m_arg_testBit7 (x p : Nat) :
    (trap_m_mstatus_arg x p).testBit 7 =
      (if x &&& MSTATUS.MIE ≠ 0 then true else false) := by
  simp only [trap_m_mstatus_arg]
  rw [show MSTATUS.MIE = 1 <<< 3 from rfl,
    and_compl_single_testBit _ 3 7 (by norm_num) (by norm_num),
    Nat.testBit_or, and_compl_mpp_testBit _ 7 (by norm_num) (by norm_num)
      (by norm_num), Nat.testBit_shiftLeft]
  by_cases hC : x &&& 1 <<< 3 ≠ 0
  · rw [if_pos hC, if_pos hC, show MSTATUS.MPIE = 1 <<< 7 from rfl,
      or_single_testBit_self]
    simp
  · rw [if_neg hC, if_neg hC, show MSTATUS.MPIE = 1 <<< 7 from rfl,
      and_compl_single_testBit_self _ 7 (by norm_num)]
    simp

theorem mret_arg_testBit3 (x : Nat) :
    (mret_mstatus_arg x).testBit 3 =
      (if x.testBit 7 = true then true else false) := by
  simp only [mret_mstatus_arg]
  rw [show MSTATUS.MPIE = 1 <<< 7 from rfl,
    and_compl_mpp_testBit _ 3 (by norm_num) (by norm_num) (by norm_num),
    or_single_testBit _ 7 3 (by norm_num)]
  by_cases hC1 : (x &&& MSTATUS.MPP) >>> 11 ≠ privM
  · rw [if_pos hC1]
    have hb7 : (x &&& compl64 MSTATUS.MPRV).testBit 7 = x.testBit 7 := by
      rw [show MSTATUS.MPRV = 1 <<< 17 from rfl,
        and_compl_single_testBit _ 17 7 (by norm_num) (by norm_num)]
    by_cases hx7 : x.testBit 7 = true
    · have hcc : x &&& compl64 MSTATUS.MPRV &&& (1 <<< 7) ≠ 0 :=
        (and_single_ne_zero _ 7).mpr (hb7.trans hx7)
      rw [if_pos hcc, if_pos hx7, show MSTATUS.MIE = 1 <<< 3 from rfl,
        or_single_testBit_self]
    · have hcc : ¬x &&& compl64 MSTATUS.MPRV &&& (1 <<< 7) ≠ 0 := by
        intro hcon
        exact hx7 (hb7 ▸ (and_single_ne_zero _ 7).mp hcon)
      rw [if_neg hcc, if_neg hx7, show MSTATUS.MIE = 1 <<< 3 from rfl,
        and_compl_single_testBit_self _ 3 (by norm_num)]
  · rw [if_neg hC1]
    by_cases hx7 : x.testBit 7 = true
    · have hcc : x &&& (1 <<< 7) ≠ 0 := (and_single_ne_zero _ 7).mpr hx7
      rw [if_pos hcc, if_pos hx7, show MSTATUS.MIE = 1 <<< 3 from rfl,
        or_single_testBit_self]
    · have hcc : ¬x &&& (1 <<< 7) ≠ 0 := by
        intro hcon
        exact hx7 ((and_single_ne_zero _ 7).mp hcon)
      rw [if_neg hcc, if_neg hx7, show MSTATUS.MIE = 1 <<< 3 from rfl,
        and_compl_single_testBit_self _ 3 (by norm_num)]

theorem mret_arg_testBit7 (x : Nat) :
    (mret_mstatus_arg x).testBit 7 = true := by
  simp only [mret_mstatus_arg]
  rw [and_compl_mpp_testBit _ 7 (by norm_num) (by norm_num) (by norm_num),
    show MSTATUS.MPIE = 1 <<< 7 from rfl, or_single_testBit_self]

theorem mret_arg_testBit11 (x : Nat) :
    (mret_mstatus_arg x).testBit 11 = false := by
  simp only [mret_mstatus_arg]
  rw [and_compl_mpp_testBit_11]

theorem mret_arg_testBit12 (x : Nat) :
    (mret_mstatus_arg x).testBit 12 = false := by
  simp only [mret_mstatus_arg]
  rw [and_compl_mpp_testBit_12]

/-- `handle_trap` on a non-delegated cause, unfolded. -/
theorem handle_trap_to_m (h : Hart) (t : Trap)
    (hc : ¬t.cause = TrapCause.None)
    (hm : ¬trap_target_priv h t = privS) :
    handle_trap h t =
      .ok { h with
            mepc := epc_write_unchecked h.mepc t.pc,
            mcause := cause_write_unchecked privM h.mcause t.cause.val,
            mtval := t.tval,
            mstatus := mstatus_write_unchecked h.mstatus
              (trap_m_mstatus_arg (mstatus_read h.mstatus) h.priv),
            pc := trap_vector_pc h.mtvec t,
            priv := privM } := by
  rw [handle_trap, if_neg hc, if_neg hm]

/-- `exec_mret` in M-mode, unfolded. -/
theorem exec_mret_privM (h : Hart) (d : DecodedInsn) (hpm : h.priv = privM) :
    exec_mret h d =
      .ok { h with
            pc := epc_read h.mepc,
            priv := (mstatus_read h.mstatus &&& MSTATUS.MPP) >>> 11,
            mstatus := mstatus_write_unchecked h.mstatus
              (mret_mstatus_arg (mstatus_read h.mstatus)) } := by
  rw [exec_mret, if_neg (by rw [hpm]; exact fun hne => hne rfl)]

/-- C4 (amended): for every trap taken to M-mode from privilege `p < 4` and
any pre-trap mstatus, dispatching the trap and executing MRET restores the
privilege and the MIE field of mstatus exactly; MPIE however is forced to 1
and MPP to U afterwards, so the pre-trap mstatus is restored in the three
fields the dispatcher touches only when it already had MPIE = 1 and
MPP = U. -/
theorem trap_to_m_then_mret_restores (h : Hart) (t : Trap) (d : DecodedInsn)
    (hc : ¬t.cause = TrapCause.None) (hp : h.priv < 4)
    (htp : trap_target_priv h t = privM) :
    (handle_trap h t).isOk = true ∧
    (exec_mret (hartOf (handle_trap h t) h) d).isOk = true ∧
    (trapThenMret h t d).priv = h.priv ∧
    mstatus_read (trapThenMret h t d).mstatus &&& MSTATUS.MIE =
      mstatus_read h.mstatus &&& MSTATUS.MIE ∧
    mstatus_read (trapThenMret h t d).mstatus &&& MSTATUS.MPIE =
      MSTATUS.MPIE ∧
    mstatus_read (trapThenMret h t d).mstatus &&& MSTATUS.MPP = 0 := by
  have hne : ¬trap_target_priv h t = privS := by rw [htp]; decide
  have hht := handle_trap_to_m h t hc hne
  rw [trapThenMret, hht]
  simp only [hartOf]
  rw [exec_mret_privM _ d rfl]
  simp only [hartOf, MemResult.isOk]
  -- bit-level facts about the intermediate mstatus
  have f11 : (mstatus_read (mstatus_write_unchecked h.mstatus
      (trap_m_mstatus_arg (mstatus_read h.mstatus) h.priv))).testBit 11 =
      h.priv.testBit 0 := by
    rw [read_write_testBit _ _ _ (by norm_num) (by decide) (by decide),
      trap_m_arg_testBit11]
  have f12 : (mstatus_read (mstatus_write_unchecked h.mstatus
      (trap_m_mstatus_arg (mstatus_read h.mstatus) h.priv))).testBit 12 =
      h.priv.testBit 1 := by
    rw [read_write_testBit _ _ _ (by norm_num) (by decide) (by decide),
      trap_m_arg_testBit12]
  have f7 : (mstatus_read (mstatus_write_unchecked h.mstatus
      (trap_m_mstatus_arg (mstatus_read h.mstatus) h.priv))).testBit 7 =
      (if mstatus_read h.mstatus &&& MSTATUS.MIE ≠ 0 then true else false) := by
    rw [read_write_testBit _ _ _ (by norm_num) (by decide) (by decide),
      trap_m_arg_testBit7]
  have hpriv2 : (mstatus_read (mstatus_write_unchecked h.mstatus
      (trap_m_mstatus_arg (mstatus_read h.mstatus) h.priv)) &&&
      MSTATUS.MPP) >>> 11 = h.priv :=
    mpp_field_value _ _ hp f11 f12
  refine ⟨trivial, trivial, hpriv2, ?_, ?_, ?_⟩
  · rw [show MSTATUS.MIE = 1 <<< 3 from rfl]
    apply and_single_eq_of_testBit
    rw [read_write_testBit _ _ _ (by norm_num) (by decide) (by decide),
      mret_arg_testBit3, f7]
    by_cases hC : mstatus_read h.mstatus &&& MSTATUS.MIE ≠ 0
    · rw [if_pos hC]
      have := (and_single_ne_zero (mstatus_read h.mstatus) 3).mp hC
      simp [this]
    · rw [if_neg hC]
      have : (mstatus_read h.mstatus).testBit 3 = false := by
        by_contra hcon
        exact hC ((and_single_ne_zero (mstatus_read h.mstatus) 3).mpr
          (by revert hcon; cases (mstatus_read h.mstatus).testBit 3 <;> simp))
      simp [this]
  · rw [show MSTATUS.MPIE = 1 <<< 7 from rfl]
    apply and_single_eq_self
    rw [read_write_testBit _ _ _ (by norm_num) (by decide) (by decide),
      mret_arg_testBit7]
  · apply and_mpp_eq_zero
    · rw [read_write_testBit _ _ _ (by norm_num) (by decide) (by decide),
        mret_arg_testBit11]
    · rw [read_write_testBit _ _ _ (by norm_num) (by decide) (by decide),
        mret_arg_testBit12]

/-- Witness for C4's amended theorem: an illegal-instruction trap taken in
M-mode with MPIE and MPP clear beforehand, followed by MRET. -/
theorem trap_to_m_then_mret_restores_witness :
    (handle_trap (witnessHart 0 0) ⟨0x80000000, .IllegalInstruction, 0⟩).isOk
        = true ∧
    (exec_mret (hartOf (handle_trap (witnessHart 0 0)
        ⟨0x80000000, .IllegalInstruction, 0⟩) (witnessHart 0 0))
      witnessInsn).isOk = true ∧
    (trapThenMret (witnessHart 0 0) ⟨0x80000000, .IllegalInstruction, 0⟩
      witnessInsn).priv = (witnessHart 0 0).priv ∧
    mstatus_read (trapThenMret (witnessHart 0 0)
        ⟨0x80000000, .IllegalInstruction, 0⟩ witnessInsn).mstatus &&&
      MSTATUS.MIE =
      mstatus_read (witnessHart 0 0).mstatus &&& MSTATUS.MIE ∧
    mstatus_read (trapThenMret (witnessHart 0 0)
        ⟨0x80000000, .IllegalInstruction, 0⟩ witnessInsn).mstatus &&&
      MSTATUS.MPIE = MSTATUS.MPIE ∧
    mstatus_read (trapThenMret (witnessHart 0 0)
        ⟨0x80000000, .IllegalInstruction, 0⟩ witnessInsn).mstatus &&&
      MSTATUS.MPP = 0 :=
  trap_to_m_then_mret_restores (witnessHart 0 0)
    ⟨0x80000000, .IllegalInstruction, 0⟩ witnessInsn (by decide) (by decide)
    (by decide)

/-- C4 counterexample: with pre-trap mstatus = 0 (so MPIE = 0) in M-mode,
taking a trap and executing MRET yields mstatus.MPIE = 1, not the pre-trap
0: the dispatcher/MRET pair is not idempotent on MPIE for all values. -/
theorem trap_then_mret_not_idempotent_counterexample :
    mstatus_read (witnessHart 0 0).mstatus &&& MSTATUS.MPIE = 0 ∧
    mstatus_read (trapThenMret (witnessHart 0 0)
        ⟨0x80000000, .IllegalInstruction, 0⟩ witnessInsn).mstatus &&&
      MSTATUS.MPIE = MSTATUS.MPIE ∧
    MSTATUS.MPIE ≠ 0 := by decide

/-- A failed bus write leaves the bus unchanged. -/
theorem bus_write_false_eq (b : Bus) (addr size v : Nat)
    (h : (Bus.write b addr size v).2 = false) :
    (Bus.write b addr size v).1 = b := by
  by_cases hd : dram_is_valid_addr b.dramSize addr size = true
  · exfalso
    unfold Bus.write at h
    rw [if_pos hd] at h
    simp at h
  · unfold Bus.write at h ⊢
    rw [if_neg hd] at h ⊢
    rcases hf : List.find? (fun dev => dev.contains addr size) b.devices with
      _ | dev
    · rw [hf]
    · rw [hf] at h
      simp at h

/-! ## Claim C10: device write rejection is discarded by the bus -/

/-- C10: when an address (with its access width) is claimed by a registered
device rather than DRAM, `Bus::write` returns true regardless of the
device's `write_internal` verdict — in particular even when the handler
rejects the access — whereas `Bus::read` returns exactly what the device's
`read_internal` produced, so a read rejection propagates as an empty
result. -/
theorem bus_write_discards_device_rejection (b : Bus) (addr size v : Nat)
    (dev : BusDevice)
    (hnd : dram_is_valid_addr b.dramSize addr size = false)
    (hfind : b.devices.find? (fun d => d.contains addr size) = some dev) :
    (Bus.write b addr size v).2 = true ∧
    (dev.write_internal (addr - dev.devStart) size (v % 2 ^ (8 * size)) =
        false → (Bus.write b addr size v).2 = true) ∧
    Bus.read b addr size = dev.read addr size ∧
    (dev.read_internal (addr - dev.devStart) size = none →
      Bus.read b addr size = none) := by
  have hw : (Bus.write b addr size v).2 = true := by
    unfold Bus.write
    rw [if_neg (by simp [hnd]), hfind]
  have hr : Bus.read b addr size = dev.read addr size := by
    unfold Bus.read
    rw [if_neg (by simp [hnd]), hfind]
  refine ⟨hw, fun _ => hw, hr, fun hnone => ?_⟩
  rw [hr, BusDevice.read, hnone]

/-- Witness for C10 at a concrete input: a 4-byte write into the rejecting
device's range returns true although `write_internal` said false, and the
matching read propagates the rejection as none. -/
theorem bus_write_discards_device_rejection_witness :
    (Bus.write demoDeviceBus 0x10000010 4 0xDEAD).2 = true ∧
    Bus.read demoDeviceBus 0x10000010 4 = none := by
  have h := bus_write_discards_device_rejection demoDeviceBus 0x10000010 4
    0xDEAD rejectingDevice (by decide) rfl
  exact ⟨h.1, h.2.2.2 rfl⟩

/-- Invariants of the leaf handler: a trap means no write-back happened and
the bus is unchanged, with the faulting virtual address in tval; any
write-back it performs requires ADUE and a permitted leaf PTE of the
original bus at the written address. -/
theorem sv39_leaf_props (bus : Bus) (pc vaddr : Nat) (ty : AccessType)
    (priv : Nat) (sum mxr adue : Bool) (i pte_addr pte pte_ppn : Nat)
    (res : MemResult Nat) (tr : List (Nat × Nat)) (bus2 : Bus)
    (hread : Bus.read bus pte_addr 8 = some pte)
    (hvalid : ¬(pte &&& PTE_V = 0 ∨ (pte &&& PTE_R = 0 ∧ pte &&& PTE_W ≠ 0)))
    (hleaf : pte &&& PTE_R ≠ 0 ∨ pte &&& PTE_X ≠ 0)
    (hW : sv39_leaf bus pc vaddr ty priv sum mxr adue i pte_addr pte pte_ppn
      = (res, tr, bus2)) :
    (∀ t, res = .trap t → tr = [] ∧ bus2 = bus ∧
      (t = ⟨pc, page_fault_cause ty, vaddr⟩ ∨
        t = ⟨pc, access_fault_cause ty, vaddr⟩)) ∧
    res ≠ .fatal ∧
    (∀ w, w ∈ tr → adue = true ∧ ad_writeback_ok bus ty mxr w) := by
  rw [sv39_leaf] at hW
  split at hW
  · injection hW with hW1 hWr
    injection hWr with hW2 hW3
    subst hW1
    subst hW2
    subst hW3
    refine ⟨fun t ht => ?_, by simp, by simp⟩
    cases ht
    exact ⟨rfl, rfl, Or.inl rfl⟩
  · split at hW
    · injection hW with hW1 hWr
      injection hWr with hW2 hW3
      subst hW1
      subst hW2
      subst hW3
      refine ⟨fun t ht => ?_, by simp, by simp⟩
      cases ht
      exact ⟨rfl, rfl, Or.inl rfl⟩
    · split at hW
      · injection hW with hW1 hWr
        injection hWr with hW2 hW3
        subst hW1
        subst hW2
        subst hW3
        refine ⟨fun t ht => ?_, by simp, by simp⟩
        cases ht
        exact ⟨rfl, rfl, Or.inl rfl⟩
      · split at hW
        · injection hW with hW1 hWr
          injection hWr with hW2 hW3
          subst hW1
          subst hW2
          subst hW3
          refine ⟨fun t ht => ?_, by simp, by simp⟩
          cases ht
          exact ⟨rfl, rfl, Or.inl rfl⟩
        · rename_i hperm
          split at hW
          · split at hW
            · injection hW with hW1 hWr
              injection hWr with hW2 hW3
              subst hW1
              subst hW2
              subst hW3
              refine ⟨fun t ht => ?_, by simp, by simp⟩
              cases ht
              exact ⟨rfl, rfl, Or.inl rfl⟩
            · rename_i hadue
              split at hW
              · injection hW with hW1 hWr
                injection hWr with hW2 hW3
                subst hW1
                subst hW2
                subst hW3
                refine ⟨fun t ht => absurd ht (by simp), by simp,
                  fun w hw => ?_⟩
                rw [List.mem_singleton] at hw
                subst hw
                refine ⟨by revert hadue; cases adue <;> simp,
                  pte, hread, hvalid, hleaf, ?_, rfl⟩
                revert hperm
                cases walk_allowed pte mxr ty <;> simp
              · rename_i hwr
                injection hW with hW1 hWr
                injection hWr with hW2 hW3
                subst hW1
                subst hW2
                subst hW3
                refine ⟨fun t ht => ?_, by simp, by simp⟩
                cases ht
                refine ⟨rfl, ?_, Or.inr rfl⟩
                exact bus_write_false_eq _ _ _ _
                  (by revert hwr; cases (Bus.write bus pte_addr 8 _).2 <;> simp)
          · injection hW with hW1 hWr
            injection hWr with hW2 hW3
            subst hW1
            subst hW2
            subst hW3
            exact ⟨fun t ht => absurd ht (by simp), by simp, by simp⟩

set_option maxRecDepth 8000 in
/-- Invariants of the walk loop: a trapping walk performed no PTE
write-back and left the bus unchanged, and every fault it raises carries
the faulting virtual address; the walk never terminates the emulator; and
any write-back it performs requires ADUE and targets a valid, permitted
leaf PTE. -/
theorem sv39_walk_props (bus : Bus) (pc vaddr : Nat) (ty : AccessType)
    (priv : Nat) (sum mxr adue : Bool) :
    ∀ i a res tr bus2,
      sv39_walk bus pc vaddr ty priv sum mxr adue i a = (res, tr, bus2) →
      (∀ t, res = .trap t → tr = [] ∧ bus2 = bus ∧
        (t = ⟨pc, page_fault_cause ty, vaddr⟩ ∨
          t = ⟨pc, access_fault_cause ty, vaddr⟩)) ∧
      res ≠ .fatal ∧
      (∀ w, w ∈ tr → adue = true ∧ ad_writeback_ok bus ty mxr w) := by
  intro i
  induction i using Nat.strong_induction_on with
  | _ i ih =>
  intro a res tr bus2 hW
  rw [sv39_walk] at hW
  split at hW
  · injection hW with hW1 hWr
    injection hWr with hW2 hW3
    subst hW1
    subst hW2
    subst hW3
    refine ⟨fun t ht => ?_, by simp, by simp⟩
    cases ht
    exact ⟨rfl, rfl, Or.inr rfl⟩
  · rename_i pte heq
    split at hW
    · injection hW with hW1 hWr
      injection hWr with hW2 hW3
      subst hW1
      subst hW2
      subst hW3
      refine ⟨fun t ht => ?_, by simp, by simp⟩
      cases ht
      exact ⟨rfl, rfl, Or.inl rfl⟩
    · rename_i hvalid
      split at hW
      · injection hW with hW1 hWr
        injection hWr with hW2 hW3
        subst hW1
        subst hW2
        subst hW3
        refine ⟨fun t ht => ?_, by simp, by simp⟩
        cases ht
        exact ⟨rfl, rfl, Or.inl rfl⟩
      · split at hW
        · -- non-leaf PTE
          split at hW
          · injection hW with hW1 hWr
            injection hWr with hW2 hW3
            subst hW1
            subst hW2
            subst hW3
            refine ⟨fun t ht => ?_, by simp, by simp⟩
            cases ht
            exact ⟨rfl, rfl, Or.inl rfl⟩
          · split at hW
            · injection hW with hW1 hWr
              injection hWr with hW2 hW3
              subst hW1
              subst hW2
              subst hW3
              refine ⟨fun t ht => ?_, by simp, by simp⟩
              cases ht
              exact ⟨rfl, rfl, Or.inl rfl⟩
            · exact ih (i - 1) (by omega) _ res tr bus2 hW
        · -- leaf PTE
          rename_i hleaf
          exact sv39_leaf_props bus pc vaddr ty priv sum mxr adue i _ pte _
            res tr bus2 heq hvalid (not_not.mp hleaf) hW

/-- Invariants of `MMU::translate`: a trapping translation performed no PTE
write-back and left the bus unchanged, and the trap carries the faulting
virtual address; any write-back requires menvcfg.ADUE and targets a valid,
permitted leaf PTE. -/
theorem MMU_translate_props (h : Hart) (bus : Bus) (pc vaddr : Nat)
    (ty : AccessType) (res : MemResult Nat) (tr : List (Nat × Nat))
    (bus2 : Bus) (hT : MMU_translate h bus pc vaddr ty = (res, tr, bus2)) :
    (∀ t, res = .trap t → tr = [] ∧ bus2 = bus ∧ t.pc = pc ∧
      t.tval = vaddr) ∧
    (∀ w, w ∈ tr → menvcfg_read h.menvcfg &&& MENVCFG.ADUE ≠ 0 ∧
      ad_writeback_ok bus ty
        (decide (mstatus_read h.mstatus &&& MSTATUS.MXR ≠ 0)) w) := by
  rw [MMU_translate] at hT
  dsimp only at hT
  split at hT
  · -- effective privilege comes from MPP
    split at hT
    · injection hT with hW1 hWr
      injection hWr with hW2 hW3
      subst hW1
      subst hW2
      subst hW3
      exact ⟨fun t ht => absurd ht (by simp), by simp⟩
    · split at hT
      · injection hT with hW1 hWr
        injection hWr with hW2 hW3
        subst hW1
        subst hW2
        subst hW3
        exact ⟨fun t ht => absurd ht (by simp), by simp⟩
      · split at hT
        · injection hT with hW1 hWr
          injection hWr with hW2 hW3
          subst hW1
          subst hW2
          subst hW3
          exact ⟨fun t ht => absurd ht (by simp), by simp⟩
        · split at hT
          · injection hT with hW1 hWr
            injection hWr with hW2 hW3
            subst hW1
            subst hW2
            subst hW3
            refine ⟨fun t ht => ?_, by simp⟩
            cases ht
            exact ⟨rfl, rfl, rfl, rfl⟩
          · have hprops := sv39_walk_props bus pc vaddr ty _ _ _ _ 2 _
              res tr bus2 hT
            refine ⟨fun t ht => ?_, fun w hw => ?_⟩
            · obtain ⟨htr, hbus, hcause⟩ := hprops.1 t ht
              refine ⟨htr, hbus, ?_, ?_⟩
              · rcases hcause with rfl | rfl <;> rfl
              · rcases hcause with rfl | rfl <;> rfl
            · obtain ⟨hadue, hok⟩ := hprops.2.2 w hw
              exact ⟨of_decide_eq_true hadue, hok⟩
  · -- effective privilege is the hart privilege
    split at hT
    · injection hT with hW1 hWr
      injection hWr with hW2 hW3
      subst hW1
      subst hW2
      subst hW3
      exact ⟨fun t ht => absurd ht (by simp), by simp⟩
    · split at hT
      · injection hT with hW1 hWr
        injection hWr with hW2 hW3
        subst hW1
        subst hW2
        subst hW3
        exact ⟨fun t ht => absurd ht (by simp), by simp⟩
      · split at hT
        · injection hT with hW1 hWr
          injection hWr with hW2 hW3
          subst hW1
          subst hW2
          subst hW3
          exact ⟨fun t ht => absurd ht (by simp), by simp⟩
        · split at hT
          · injection hT with hW1 hWr
            injection hWr with hW2 hW3
            subst hW1
            subst hW2
            subst hW3
            refine ⟨fun t ht => ?_, by simp⟩
            cases ht
            exact ⟨rfl, rfl, rfl, rfl⟩
          · have hprops := sv39_walk_props bus pc vaddr ty _ _ _ _ 2 _
              res tr bus2 hT
            refine ⟨fun t ht => ?_, fun w hw => ?_⟩
            · obtain ⟨htr, hbus, hcause⟩ := hprops.1 t ht
              refine ⟨htr, hbus, ?_, ?_⟩
              · rcases hcause with rfl | rfl <;> rfl
              · rcases hcause with rfl | rfl <;> rfl
            · obtain ⟨hadue, hok⟩ := hprops.2.2 w hw
              exact ⟨of_decide_eq_true hadue, hok⟩

/-! ## Claim C6: bad PTEs fault before any A/D write-back -/

/-- C6: a fetched PTE with `V = 0`, or `R = 0 ∧ W = 1`, makes the walk
return the page fault of the access type immediately, with no PTE
write-back and an unchanged bus; and at the `MMU::translate` level, a
trapping translation performs no bus write of any PTE, while any PTE
write-back that does happen requires `menvcfg.ADUE = 1` and rewrites a
valid leaf PTE that passed the permission checks, setting A (and D for
stores). -/
theorem sv39_bad_pte_faults_without_writeback (h : Hart) (bus : Bus)
    (pc vaddr : Nat) (ty : AccessType) (priv : Nat) (sum mxr adue : Bool) :
    (∀ i a pte,
      Bus.read bus (a + ((vaddr >>> (12 + i * 9)) &&& ((1 <<< 9) - 1)) * 8) 8
        = some pte →
      pte &&& PTE_V = 0 ∨ (pte &&& PTE_R = 0 ∧ pte &&& PTE_W ≠ 0) →
      sv39_walk bus pc vaddr ty priv sum mxr adue i a =
        (.trap ⟨pc, page_fault_cause ty, vaddr⟩, [], bus)) ∧
    (∀ res tr bus2, MMU_translate h bus pc vaddr ty = (res, tr, bus2) →
      (∀ t, res = .trap t → tr = [] ∧ bus2 = bus) ∧
      (∀ w, w ∈ tr → menvcfg_read h.menvcfg &&& MENVCFG.ADUE ≠ 0 ∧
        ad_writeback_ok bus ty
          (decide (mstatus_read h.mstatus &&& MSTATUS.MXR ≠ 0)) w)) := by
  constructor
  · intro i a pte hread hbad
    rw [sv39_walk]
    split
    · rename_i hnone
      rw [hread] at hnone
      cases hnone
    · rename_i pte2 heq
      rw [hread] at heq
      injection heq with heq2
      subst heq2
      rw [if_pos hbad]
  · intro res tr bus2 hT
    have hprops := MMU_translate_props h bus pc vaddr ty res tr bus2 hT
    exact ⟨fun t ht => ⟨(hprops.1 t ht).1, (hprops.1 t ht).2.1⟩, hprops.2⟩

/-- Witness for C6 at a concrete input: the level-0 PTE for VA `0x1000` in
the demonstration machine is 0 (V = 0), so a load walk returns a load page
fault with no write-back and the bus untouched. -/
theorem sv39_bad_pte_faults_without_writeback_witness :
    sv39_walk demoBus 0xFFE 0x1000 .Load privS false false false 0
        0x80002000 =
      (.trap ⟨0xFFE, .LoadPageFault, 0x1000⟩, [], demoBus) :=
  (sv39_bad_pte_faults_without_writeback demoHart demoBus 0xFFE 0x1000 .Load
    privS false false false).1 0 0x80002000 0 (by decide) (by decide)

/-- C1 (amended). An ordinary store (`exec_sw`/`exec_sd`) goes through
`MMU::write` only and leaves the LR/SC reservation exactly as it was; a
successful LR.W establishes a valid reservation on R[rs1]; and an SC.W
executed with a valid reservation matching R[rs1] whose store succeeds
writes 0 to rd, performs the memory write, and clears the reservation.
(The spec's claim that an intervening ordinary store invalidates the
reservation and makes the SC fail is refuted: the store does not touch the
reservation, so the SC succeeds.) -/
theorem store_keeps_reservation_sc_succeeds (m : Machine) (d : DecodedInsn) :
    ((exec_sw m d).2.reservation_valid = m.reservation_valid ∧
      (exec_sw m d).2.reservation_address = m.reservation_address) ∧
    ((exec_sd m d).2.reservation_valid = m.reservation_valid ∧
      (exec_sd m d).2.reservation_address = m.reservation_address) ∧
    (∀ v, (mmu_read m.hart m.bus d.pc (gprRead m.hart.gprs d.rs1) 4).1 =
        .ok v →
      (exec_lr_w m d).1 = .ok () ∧
      (exec_lr_w m d).2.reservation_valid = true ∧
      (exec_lr_w m d).2.reservation_address =
        gprRead (exec_lr_w m d).2.hart.gprs d.rs1) ∧
    (m.reservation_valid = true →
      m.reservation_address = gprRead m.hart.gprs d.rs1 →
      (mmu_write m.hart m.bus d.pc (gprRead m.hart.gprs d.rs1)
        (gprRead m.hart.gprs d.rs2) 4).1 = .ok () →
      exec_sc_w m d = (.ok (), { m with
        bus := (mmu_write m.hart m.bus d.pc (gprRead m.hart.gprs d.rs1)
          (gprRead m.hart.gprs d.rs2) 4).2,
        hart := { m.hart with gprs := gprWrite m.hart.gprs d.rd 0 },
        reservation_valid := false })) := by
  refine ⟨?_, ?_, ?_, ?_⟩
  · rcases hW : mmu_write m.hart m.bus d.pc
        (wrap64 (gprRead m.hart.gprs d.rs1 + d.imm))
        (bitsOf (gprRead m.hart.gprs d.rs2) 31 0) 4 with ⟨r0, bus2⟩
    rw [exec_sw, hW]
    exact ⟨rfl, rfl⟩
  · rcases hW : mmu_write m.hart m.bus d.pc
        (wrap64 (gprRead m.hart.gprs d.rs1 + d.imm))
        (gprRead m.hart.gprs d.rs2) 8 with ⟨r0, bus2⟩
    rw [exec_sd, hW]
    exact ⟨rfl, rfl⟩
  · intro v hv
    rcases hR : mmu_read m.hart m.bus d.pc (gprRead m.hart.gprs d.rs1) 4
      with ⟨r0, bus1⟩
    rw [hR] at hv
    have hr0 : r0 = .ok v := hv
    subst hr0
    rw [exec_lr_w, hR]
    exact ⟨rfl, rfl, rfl⟩
  · intro hv ha hw
    rcases hW : mmu_write m.hart m.bus d.pc (gprRead m.hart.gprs d.rs1)
        (gprRead m.hart.gprs d.rs2) 4 with ⟨r0, bus1⟩
    rw [hW] at hw
    have hr0 : r0 = .ok () := hw
    subst hr0
    rw [exec_sc_w, if_pos (And.intro hv ha), hW]

/-- Witness for the amended C1 theorem: with a valid reservation on
x1 = `0x8000_0100`, SC.W succeeds, stores x3, writes 0 to x5 and clears
the reservation. -/
theorem store_keeps_reservation_sc_succeeds_witness :
    exec_sc_w { lrscMachine with
        reservation_valid := true, reservation_address := 0x80000100 }
      scInsn =
    (.ok (), { { lrscMachine with
        reservation_valid := true, reservation_address := 0x80000100 } with
      bus := (mmu_write lrscMachine.hart lrscMachine.bus scInsn.pc
        (gprRead lrscMachine.hart.gprs scInsn.rs1)
        (gprRead lrscMachine.hart.gprs scInsn.rs2) 4).2,
      hart := { lrscMachine.hart with
        gprs := gprWrite lrscMachine.hart.gprs scInsn.rd 0 },
      reservation_valid := false }) :=
  (store_keeps_reservation_sc_succeeds { lrscMachine with
      reservation_valid := true, reservation_address := 0x80000100 }
    scInsn).2.2.2 (by decide) (by decide) (by decide)

/-- Counterexample to C1 as stated: LR.W x4,(x1) establishes a reservation
on A = `0x8000_0100`; an ordinary SW to A from the same hart leaves the
reservation valid; the subsequent SC.W x5,x3,(x1) therefore succeeds,
writing 0 (not 1) to x5 and storing x3 = `0x5566_7788` to A (the memory
does not stay at the SW value `0x1122_3344`). -/
theorem store_then_sc_counterexample :
    (exec_lr_w lrscMachine lrInsn).1.isOk = true ∧
    (exec_sw (exec_lr_w lrscMachine lrInsn).2 swInsn).1.isOk = true ∧
    (exec_sw (exec_lr_w lrscMachine lrInsn).2 swInsn).2.reservation_valid =
      true ∧
    (exec_sc_w (exec_sw (exec_lr_w lrscMachine lrInsn).2 swInsn).2
      scInsn).1.isOk = true ∧
    gprRead (exec_sc_w (exec_sw (exec_lr_w lrscMachine lrInsn).2 swInsn).2
      scInsn).2.hart.gprs 5 = 0 ∧
    Bus.read (exec_sc_w (exec_sw (exec_lr_w lrscMachine lrInsn).2 swInsn).2
      scInsn).2.bus 0x80000100 4 = some 0x55667788 := by
  decide

/-- C7: at the last two bytes of a page, a fault on the first halfword's
translation aborts the fetch with tval = PC after touching only page PC; a
compressed first halfword ends the fetch with no second translation or
read; an uncompressed first halfword makes the fetch translate PC+2, and a
trap from that second translation (in particular a page fault,
`InstructionPageFault` for fetches) propagates with tval = PC+2. -/
theorem ifetch_cross_page_behavior (h : Hart) (bus : Bus)
    (isC : Nat → Bool) (hcross : may_cross_page h.pc = true) :
    (∀ t tr1 bus1,
      MMU_translate h bus h.pc h.pc .Fetch = (.trap t, tr1, bus1) →
      MMU_ifetch h bus isC = (.trap t, [h.pc], bus1) ∧ t.tval = h.pc) ∧
    (∀ paddr tr1 bus1 v,
      MMU_translate h bus h.pc h.pc .Fetch = (.ok paddr, tr1, bus1) →
      Bus.read bus1 paddr 2 = some v → isC v = true →
      MMU_ifetch h bus isC = (.ok (v, .Compressed), [h.pc], bus1)) ∧
    (∀ paddr tr1 bus1 v t tr2 bus2,
      MMU_translate h bus h.pc h.pc .Fetch = (.ok paddr, tr1, bus1) →
      Bus.read bus1 paddr 2 = some v → isC v = false →
      MMU_translate h bus1 h.pc (wrap64 (h.pc + 2)) .Fetch =
        (.trap t, tr2, bus2) →
      MMU_ifetch h bus isC =
        (.trap t, [h.pc, wrap64 (h.pc + 2)], bus2) ∧
      t.tval = wrap64 (h.pc + 2) ∧ t.pc = h.pc) := by
  have hnc : ¬may_cross_page h.pc = false := by simp [hcross]
  refine ⟨?_, ?_, ?_⟩
  · intro t tr1 bus1 hT
    have hprops :=
      (MMU_translate_props h bus h.pc h.pc .Fetch _ _ _ hT).1 t rfl
    rw [MMU_ifetch, if_neg hnc, hT]
    exact ⟨rfl, hprops.2.2.2⟩
  · intro paddr tr1 bus1 v hT h2 hc
    rw [MMU_ifetch, if_neg hnc, hT]
    show ifetch_cross_read h bus1 isC paddr = _
    rw [ifetch_cross_read, h2]
    show ifetch_cross_second h bus1 isC v = _
    rw [ifetch_cross_second, if_pos hc]
  · intro paddr tr1 bus1 v t tr2 bus2 hT h2 hc hT2
    have hprops :=
      (MMU_translate_props h bus1 h.pc (wrap64 (h.pc + 2)) .Fetch _ _ _
        hT2).1 t rfl
    rw [MMU_ifetch, if_neg hnc, hT]
    show ifetch_cross_read h bus1 isC paddr = _ ∧ _
    rw [ifetch_cross_read, h2]
    show ifetch_cross_second h bus1 isC v = _ ∧ _
    rw [ifetch_cross_second, if_neg (by rw [hc]; exact Bool.false_ne_true),
      hT2]
    exact ⟨rfl, hprops.2.2.2, hprops.2.2.1⟩

/-- One non-leaf step of the walk: a valid pointer PTE descends one
level. -/
theorem sv39_walk_step (bus : Bus) (pc vaddr : Nat) (ty : AccessType)
    (priv : Nat) (sum mxr adue : Bool) (i a pte : Nat) (hi : i ≠ 0)
    (hread : Bus.read bus
      (a + ((vaddr >>> (12 + i * 9)) &&& ((1 <<< 9) - 1)) * 8) 8 =
      some pte)
    (hval : ¬(pte &&& PTE_V = 0 ∨ (pte &&& PTE_R = 0 ∧ pte &&& PTE_W ≠ 0)))
    (hres : pte >>> 54 = 0)
    (hnl : ¬(pte &&& PTE_R ≠ 0 ∨ pte &&& PTE_X ≠ 0))
    (hdau : pte &&& (PTE_D ||| PTE_A ||| PTE_U) = 0) :
    sv39_walk bus pc vaddr ty priv sum mxr adue i a =
      sv39_walk bus pc vaddr ty priv sum mxr adue (i - 1)
        (((pte >>> 10) &&& ((1 <<< 44) - 1)) <<< 12) := by
  conv_lhs => rw [sv39_walk]
  split
  · next heq => rw [hread] at heq; cases heq
  · next pte' heq =>
    rw [hread] at heq
    injection heq with heq
    subst heq
    rw [if_neg hval, if_neg (not_not_intro hres), if_pos hnl,
      if_neg (not_not_intro hdau), dif_neg hi]

/-- The leaf step of the walk: a valid leaf PTE is handed to
`sv39_leaf`. -/
theorem sv39_walk_leaf_step (bus : Bus) (pc vaddr : Nat) (ty : AccessType)
    (priv : Nat) (sum mxr adue : Bool) (i a pte : Nat)
    (hread : Bus.read bus
      (a + ((vaddr >>> (12 + i * 9)) &&& ((1 <<< 9) - 1)) * 8) 8 =
      some pte)
    (hval : ¬(pte &&& PTE_V = 0 ∨ (pte &&& PTE_R = 0 ∧ pte &&& PTE_W ≠ 0)))
    (hres : pte >>> 54 = 0)
    (hleaf : pte &&& PTE_R ≠ 0 ∨ pte &&& PTE_X ≠ 0) :
    sv39_walk bus pc vaddr ty priv sum mxr adue i a =
      sv39_leaf bus pc vaddr ty priv sum mxr adue i
        (a + ((vaddr >>> (12 + i * 9)) &&& ((1 <<< 9) - 1)) * 8) pte
        ((pte >>> 10) &&& ((1 <<< 44) - 1)) := by
  conv_lhs => rw [sv39_walk]
  split
  · next heq => rw [hread] at heq; cases heq
  · next pte' heq =>
    rw [hread] at heq
    injection heq with heq
    subst heq
    rw [if_neg hval, if_neg (not_not_intro hres),
      if_neg (not_not_intro hleaf)]

/-- A fetched PTE with V = 0 (or R = 0 and W = 1) ends the walk with a page
fault at once. -/
theorem sv39_walk_badpte (bus : Bus) (pc vaddr : Nat) (ty : AccessType)
    (priv : Nat) (sum mxr adue : Bool) (i a pte : Nat)
    (hread : Bus.read bus
      (a + ((vaddr >>> (12 + i * 9)) &&& ((1 <<< 9) - 1)) * 8) 8 =
      some pte)
    (hbad : pte &&& PTE_V = 0 ∨ (pte &&& PTE_R = 0 ∧ pte &&& PTE_W ≠ 0)) :
    sv39_walk bus pc vaddr ty priv sum mxr adue i a =
      (.trap ⟨pc, page_fault_cause ty, vaddr⟩, [], bus) := by
  conv_lhs => rw [sv39_walk]
  split
  · next heq => rw [hread] at heq; cases heq
  · next pte' heq =>
    rw [hread] at heq
    injection heq with heq
    subst heq
    rw [if_pos hbad]

/-- `MMU::translate` reduced to the Sv39 walk, for a fetch from a
non-machine privilege with satp in Sv39 mode and a canonical address. -/
theorem MMU_translate_fetch_sv39 (h : Hart) (bus : Bus) (pc vaddr : Nat)
    (h1 : h.priv ≠ privM)
    (h2 : (h.satp &&& SATP.MODE) >>> SATP.MODE_SHIFT = SATP.Sv39)
    (h3 : sext64 (vaddr % 2 ^ 39) 39 = vaddr) :
    MMU_translate h bus pc vaddr .Fetch =
      sv39_walk bus pc vaddr .Fetch h.priv
        (decide (mstatus_read h.mstatus &&& MSTATUS.SUM ≠ 0))
        (decide (mstatus_read h.mstatus &&& MSTATUS.MXR ≠ 0))
        (decide (menvcfg_read h.menvcfg &&& MENVCFG.ADUE ≠ 0)) 2
        (((h.satp &&& SATP.PPN) >>> SATP.PPN_SHIFT) <<< 12) := by
  rw [MMU_translate]
  dsimp only
  have hite : (if AccessType.Fetch ≠ AccessType.Fetch ∧
      mstatus_read h.mstatus &&& MSTATUS.MPRV ≠ 0 then
        (mstatus_read h.mstatus &&& MSTATUS.MPP) >>> 11
      else h.priv) = h.priv := if_neg (by simp)
  rw [hite, if_neg h1, h2,
    if_neg (by rw [SATP.Sv39, SATP.Bare]; exact (by decide)),
    if_neg (not_not_intro rfl), if_neg (not_not_intro h3)]

/-- The first cross-page translation in the demonstration machine: VA
`0xFFE` walks the three-level table to PA `0x8000_3FFE` with no A/D
write-back. -/
theorem demo_translate_first :
    MMU_translate demoHart demoBus 0xFFE 0xFFE .Fetch =
      (.ok 0x80003FFE, [], demoBus) := by
  rw [MMU_translate_fetch_sv39 demoHart demoBus 0xFFE 0xFFE (by decide)
    (by decide) (by decide)]
  show sv39_walk demoBus 0xFFE 0xFFE .Fetch privS false false false 2
    0x80000000 = _
  rw [sv39_walk_step demoBus 0xFFE 0xFFE .Fetch privS false false false 2
    0x80000000 0x20000401 (by decide) (by decide) (by decide) (by decide)
    (by decide) (by decide)]
  show sv39_walk demoBus 0xFFE 0xFFE .Fetch privS false false false 1
    0x80001000 = _
  rw [sv39_walk_step demoBus 0xFFE 0xFFE .Fetch privS false false false 1
    0x80001000 0x20000801 (by decide) (by decide) (by decide) (by decide)
    (by decide) (by decide)]
  show sv39_walk demoBus 0xFFE 0xFFE .Fetch privS false false false 0
    0x80002000 = _
  rw [sv39_walk_leaf_step demoBus 0xFFE 0xFFE .Fetch privS false false
    false 0 0x80002000 0x20000C4B (by decide) (by decide) (by decide)
    (by decide)]
  rfl

/-- The second cross-page translation in the demonstration machine: VA
`0x1000` reaches a null level-0 PTE and instruction-page-faults with the
second page's address as tval. -/
theorem demo_translate_second :
    MMU_translate demoHart demoBus 0xFFE 0x1000 .Fetch =
      (.trap ⟨0xFFE, .InstructionPageFault, 0x1000⟩, [], demoBus) := by
  rw [MMU_translate_fetch_sv39 demoHart demoBus 0xFFE 0x1000 (by decide)
    (by decide) (by decide)]
  show sv39_walk demoBus 0xFFE 0x1000 .Fetch privS false false false 2
    0x80000000 = _
  rw [sv39_walk_step demoBus 0xFFE 0x1000 .Fetch privS false false false 2
    0x80000000 0x20000401 (by decide) (by decide) (by decide) (by decide)
    (by decide) (by decide)]
  show sv39_walk demoBus 0xFFE 0x1000 .Fetch privS false false false 1
    0x80001000 = _
  rw [sv39_walk_step demoBus 0xFFE 0x1000 .Fetch privS false false false 1
    0x80001000 0x20000801 (by decide) (by decide) (by decide) (by decide)
    (by decide) (by decide)]
  show sv39_walk demoBus 0xFFE 0x1000 .Fetch privS false false false 0
    0x80002000 = _
  rw [sv39_walk_badpte demoBus 0xFFE 0x1000 .Fetch privS false false false
    0 0x80002000 0 (by decide) (by decide)]
  rfl

/-- Witness for C7 at a concrete input: in the demonstration machine the
PC `0xFFE` sits at the last two bytes of VA page 0, the first halfword
`0x0003` is uncompressed, and VA page 1 is unmapped, so the fetch
translates both `0xFFE` and `0x1000` and raises InstructionPageFault with
tval = `0x1000`. -/
theorem ifetch_cross_page_behavior_witness :
    MMU_ifetch demoHart demoBus rvc_is_compressed =
      (.trap ⟨0xFFE, .InstructionPageFault, 0x1000⟩, [0xFFE, 0x1000],
        demoBus) ∧
    (0xFFE : Nat) &&& 4095 = 4094 ∧
    rvc_is_compressed 3 = false := by
  refine ⟨((ifetch_cross_page_behavior demoHart demoBus rvc_is_compressed
    (by decide)).2.2 0x80003FFE [] demoBus 3
    ⟨0xFFE, .InstructionPageFault, 0x1000⟩ [] demoBus
    demo_translate_first (by decide) (by decide)
    demo_translate_second).1, by decide, by decide⟩

end Uemu
